import Mathlib

set_option maxHeartbeats 1000000

/-!
Shallow embedding of the synchronization / retry / selector-resolution core of
`grr/gui/gui_test_lib.py` (class `GRRSeleniumTest` and the `SeleniumAction`
decorator), together with theorems settling the frozen claims about it.

Modelling conventions:
* The external webdriver is a `Behavior`: a bundle of time-indexed observation
  functions (one per driver capability the code calls).  Time is an abstract
  tick counter advanced by one at every `time.sleep` suspension point.
* Stateful execution is explicit state passing: `M a = Behavior -> World ->
  Except Err a x World`.  Raising a Python exception is `Except.error`; the
  `World` (trace of driver calls, current url, field contents, tick counter)
  survives the raise, exactly as Python state survives an exception.
* Every driver invocation appends an `Event` to `World.trace`, so claims about
  "runs the idle gate before resolving", "never polls", "sleeps 200ms",
  "logs a warning per attempt" become statements about the trace.
-/

namespace GuiTestLib

/-- Opaque identifier of a DOM element handle returned by the webdriver. -/
abbrev ElemId := Nat

/-- One entry of the browser console log as returned by `driver.get_log("browser")`. -/
structure LogEntry where
  source : String
  level : String
  message : String
  deriving DecidableEq, Repr

/-- Python values that `driver.execute_script` can return in the embedded code. -/
inductive PyVal where
  | pyNone
  | pyBool (b : Bool)
  | pyInt (n : Int)
  | pyStr (s : String)
  | elemList (es : List ElemId)
  deriving DecidableEq, Repr

/-- Python `==` on the script values above (`0 == False` etc. for numerics). -/
def pyEq : PyVal → PyVal → Bool
  | PyVal.pyNone, PyVal.pyNone => true
  | PyVal.pyBool a, PyVal.pyBool b => a == b
  | PyVal.pyBool a, PyVal.pyInt b => (if a then (1 : Int) else 0) == b
  | PyVal.pyInt a, PyVal.pyBool b => a == (if b then (1 : Int) else 0)
  | PyVal.pyInt a, PyVal.pyInt b => a == b
  | PyVal.pyStr a, PyVal.pyStr b => a == b
  | PyVal.elemList a, PyVal.elemList b => a == b
  | _, _ => false

/-- The exceptions the embedded code can raise or observe.
`noSuchElement` is selenium `NoSuchElementException`; `webDriver` is any other
selenium `WebDriverException`; `runtime`, `valueError`, `typeError` are the
Python builtins; `testFailure` is `self.fail` (an `AssertionError`). -/
inductive Err where
  | noSuchElement
  | webDriver (msg : String)
  | runtime (msg : String)
  | valueError (msg : String)
  | typeError (msg : String)
  | attributeError (msg : String)
  | testFailure (msg : String)
  deriving DecidableEq, Repr

instance {α : Type} [DecidableEq α] : DecidableEq (Except Err α) := fun x y =>
  match x, y with
  | Except.ok a, Except.ok b =>
    if h : a = b then Decidable.isTrue (by rw [h]) else Decidable.isFalse (by simp [h])
  | Except.error e, Except.error f =>
    if h : e = f then Decidable.isTrue (by rw [h]) else Decidable.isFalse (by simp [h])
  | Except.ok _, Except.error _ => Decidable.isFalse (by simp)
  | Except.error _, Except.ok _ => Decidable.isFalse (by simp)

/-- In selenium, `NoSuchElementException` is a subclass of `WebDriverException`,
so `except WebDriverException` (used by `SeleniumAction`) catches both. -/
def isWebDriverError : Err → Bool
  | Err.noSuchElement => true
  | Err.webDriver _ => true
  | _ => false

/-- Only `except NoSuchElementException` clauses catch this one. -/
def isNoSuchElement : Err → Bool
  | Err.noSuchElement => true
  | _ => false

/-- Rendering of an exception, standing in for `utils.SmartUnicode(e)`. -/
def errMsg : Err → String
  | Err.noSuchElement => "NoSuchElementException"
  | Err.webDriver m => m
  | Err.runtime m => m
  | Err.valueError m => m
  | Err.typeError m => m
  | Err.attributeError m => m
  | Err.testFailure m => m

/-- Trace of observable driver interactions and suspensions. -/
inductive Event where
  | sleep (seconds : ℚ)
  | logWarning (msg : String)
  | getLog
  | execScript (js : String)
  | findLinkText (pat : String)
  | findXPath (pat : String)
  | findById (pat : String)
  | findByName (pat : String)
  | findCssAll (pat : String)
  | findBodyTag
  | navigate (url : String)
  | refresh
  | goBack
  | goForward
  | clearField (e : ElemId)
  | sendKeys (e : ElemId) (text : String)
  | click (e : ElemId)
  | doubleClick (e : ElemId)
  deriving DecidableEq, Repr

/-- Mutable state owned by the test process plus the browser session. -/
structure World where
  time : Nat
  trace : List Event
  currentUrl : String
  /-- Current contents of input fields written by `clear` and `send_keys`
  (newest binding first; `List.lookup` returns the newest). -/
  fields : List (ElemId × String)
  deriving DecidableEq, Repr

/-- Time-indexed behavior of the external driver capability and the page under
test (all read-only observations the embedded code performs). -/
structure Behavior where
  baseUrl : String
  /-- `current_url` right after `driver.get u`; `id` for a driver that lands
  exactly where it is asked to go. -/
  navigateResult : String → String
  /-- `execute_script js` at a given tick. -/
  executeScript : Nat → String → PyVal
  /-- `find_elements_by_partial_link_text` at a given tick. -/
  linkTextLookup : Nat → String → List ElemId
  xpathLookup : Nat → String → Option ElemId
  idLookup : Nat → String → Option ElemId
  nameLookup : Nat → String → Option ElemId
  /-- `find_elements_by_css_selector` at a given tick. -/
  cssAllLookup : Nat → String → List ElemId
  displayed : Nat → ElemId → Bool
  textOf : Nat → ElemId → String
  bodyText : Nat → String
  browserLog : Nat → List LogEntry
  /-- value an attribute of an element has before the test ever wrote the field -/
  attrDefault : Nat → ElemId → String → Option String
  /-- what a `send_keys text` call actually deposits into the field at a given
  tick (models the driver occasionally swallowing the last character). -/
  keysDelivered : Nat → String → String

/-- The computation type: explicit state passing with Python-style exceptions.
State survives a raise, as in Python. -/
def M (α : Type) : Type := Behavior → World → Except Err α × World

def pureM {α : Type} (a : α) : M α := fun _ w => (Except.ok a, w)

def bindM {α β : Type} (x : M α) (f : α → M β) : M β := fun b w =>
  match x b w with
  | (Except.ok a, w2) => f a b w2
  | (Except.error e, w2) => (Except.error e, w2)

def throwM {α : Type} (e : Err) : M α := fun _ w => (Except.error e, w)

/-- `try x except: handler` — the handler receives every modelled exception
(the embedded `Err` type only contains subclasses of Python `Exception`). -/
def attempt {α : Type} (x : M α) (handler : Err → M α) : M α := fun b w =>
  match x b w with
  | (Except.ok a, w2) => (Except.ok a, w2)
  | (Except.error e, w2) => handler e b w2

/-- `try x except cond as e: handler e` — rethrows when `cond` does not hold. -/
def attemptOn {α : Type} (cond : Err → Bool) (x : M α) (handler : Err → M α) :
    M α :=
  attempt x (fun e => if cond e then handler e else throwM e)

def recordEv (ev : Event) : M Unit := fun _ w =>
  (Except.ok (), { w with trace := w.trace ++ [ev] })

/-- `time.sleep seconds`: advances the abstract tick by one and records the
requested real-time duration in the trace. -/
def sleepFor (seconds : ℚ) : M Unit := fun _ w =>
  (Except.ok (), { w with time := w.time + 1, trace := w.trace ++ [Event.sleep seconds] })

def getLogM : M (List LogEntry) := fun b w =>
  (Except.ok (b.browserLog w.time), { w with trace := w.trace ++ [Event.getLog] })

def execScriptM (js : String) : M PyVal := fun b w =>
  (Except.ok (b.executeScript w.time js), { w with trace := w.trace ++ [Event.execScript js] })

def findLinkTextM (pat : String) : M (List ElemId) := fun b w =>
  (Except.ok (b.linkTextLookup w.time pat), { w with trace := w.trace ++ [Event.findLinkText pat] })

/-- `find_element_by_xpath`: raises `NoSuchElementException` when absent. -/
def findXPathM (pat : String) : M ElemId := fun b w =>
  (match b.xpathLookup w.time pat with
   | some e => Except.ok e
   | none => Except.error Err.noSuchElement,
   { w with trace := w.trace ++ [Event.findXPath pat] })

def findByIdM (pat : String) : M ElemId := fun b w =>
  (match b.idLookup w.time pat with
   | some e => Except.ok e
   | none => Except.error Err.noSuchElement,
   { w with trace := w.trace ++ [Event.findById pat] })

def findByNameM (pat : String) : M ElemId := fun b w =>
  (match b.nameLookup w.time pat with
   | some e => Except.ok e
   | none => Except.error Err.noSuchElement,
   { w with trace := w.trace ++ [Event.findByName pat] })

def findCssAllM (pat : String) : M (List ElemId) := fun b w =>
  (Except.ok (b.cssAllLookup w.time pat), { w with trace := w.trace ++ [Event.findCssAll pat] })

/-- `driver.find_element_by_tag_name("body").text` -/
def findBodyTextM : M String := fun b w =>
  (Except.ok (b.bodyText w.time), { w with trace := w.trace ++ [Event.findBodyTag] })

/-- pure observation `element.is_displayed()` -/
def isDisplayedM (e : ElemId) : M Bool := fun b w =>
  (Except.ok (b.displayed w.time e), w)

/-- pure observation `element.text` -/
def elemTextM (e : ElemId) : M String := fun b w =>
  (Except.ok (b.textOf w.time e), w)

def driverGetM (u : String) : M Unit := fun b w =>
  (Except.ok (), { w with currentUrl := b.navigateResult u, trace := w.trace ++ [Event.navigate u] })

def currentUrlM : M String := fun _ w => (Except.ok w.currentUrl, w)

def baseUrlM : M String := fun b w => (Except.ok b.baseUrl, w)

def clearFieldM (e : ElemId) : M Unit := fun _ w =>
  (Except.ok (), { w with fields := (e, "") :: w.fields, trace := w.trace ++ [Event.clearField e] })

/-- `element.send_keys text`: appends whatever the driver delivers at this tick
to the current field contents. -/
def sendKeysM (e : ElemId) (text : String) : M Unit := fun b w =>
  (Except.ok (),
   { w with
     fields := (e, (match w.fields.lookup e with
                    | some v => v
                    | none => (b.attrDefault w.time e "value").getD "") ++
                   b.keysDelivered w.time text) :: w.fields,
     trace := w.trace ++ [Event.sendKeys e text] })

/-- `element.get_attribute attr`; the `"value"` attribute reflects the writes
performed by `clear` / `send_keys`, other attributes come from the page. -/
def getAttributeM (e : ElemId) (attr : String) : M (Option String) := fun b w =>
  (Except.ok (if attr = "value" then
      match w.fields.lookup e with
      | some v => some v
      | none => b.attrDefault w.time e attr
    else b.attrDefault w.time e attr), w)

def clickElemM (e : ElemId) : M Unit := recordEv (Event.click e)

def doubleClickElemM (e : ElemId) : M Unit := recordEv (Event.doubleClick e)

/-- Python truthiness for the value types the wait loops are used with. -/
class PyTruthy (α : Type) where
  truthy : α → Bool

instance : PyTruthy Bool := ⟨fun b => b⟩

/-- an element handle is an object, hence truthy; `None` is falsy -/
instance : PyTruthy (Option ElemId) := ⟨Option.isSome⟩

instance : PyTruthy (Option Bool) :=
  ⟨fun v => match v with
    | none => false
    | some b => b⟩

instance : PyTruthy PyVal :=
  ⟨fun v => match v with
    | PyVal.pyNone => false
    | PyVal.pyBool b => b
    | PyVal.pyInt n => n != 0
    | PyVal.pyStr s => s != ""
    | PyVal.elemList es => es != []⟩

/-- Split a character list at the first occurrence of `c`; `none` when `c`
does not occur. -/
def splitAtFirst (c : Char) : List Char → Option (List Char × List Char)
  | [] => none
  | a :: rest =>
    if a = c then some ([], rest)
    else
      match splitAtFirst c rest with
      | some (pre, post) => some (a :: pre, post)
      | none => none

/-- Python `selector.split("=", 1)` of `_FindElement`, combined with the
2-tuple unpacking: `some (scheme, rest)` when the string contains at least one
`=` (split at the first one), `none` when unpacking raises `ValueError`. -/
def splitFirstEq (s : String) : Option (String × String) :=
  match splitAtFirst '=' s.toList with
  | some (pre, post) => some (String.mk pre, String.mk post)
  | none => none

/-- `effective_selector.replace("\"", "\\\"")` from the css branch. -/
def escQ (s : String) : String :=
  String.mk (s.toList.foldr (fun c acc => if c = '"' then '\\' :: '"' :: acc else c :: acc) [])

/-- The exact script string the css branch of `_FindElement` executes. -/
def cssScript (pat : String) : String := "return $(\"" ++ escQ pat ++ "\");"

def singleQuote : String := String.mk [Char.ofNat 39]

/-- The in-page ajax-queue-length probe script of `_WaitForAjaxCompleted`
(the single-quote characters are spliced in). -/
def ajaxScript : String :=
  "return $(" ++ singleQuote ++ "#ajax_spinner" ++ singleQuote ++
    ").scope().controller.queue.length"

/-- class attribute `duration = 5` (seconds) -/
def duration : ℚ := 5

/-- class attribute `sleep_time = 0.2` (seconds); `5 / 0.2` is exactly `25`
both as rationals and in the IEEE double arithmetic the source performs. -/
def sleep_time : ℚ := 1 / 5

/-- `int(self.duration / self.sleep_time)`: the polling iteration count. -/
def iterations : Nat := (Int.floor (duration / sleep_time)).toNat

/-- local `num_attempts = 15` of `SeleniumAction` -/
def num_attempts : Nat := 15

/-- local `delay = 0.2` of `SeleniumAction` -/
def selenium_delay : ℚ := 1 / 5

theorem iterations_eq : iterations = 25 := by
  have h : duration / sleep_time = (25 : ℚ) := by norm_num [duration, sleep_time]
  rw [iterations, h]
  norm_num
  rfl

/-- the characters py2 `urlparse` accepts inside a scheme token -/
def schemeChars : List Char :=
  "abcdefghijklmnopqrstuvwxyzABCDEFGHIJKLMNOPQRSTUVWXYZ0123456789+-.".toList

/-- result type of py2 `urlparse.urlparse` restricted to the components the
embedded code reads. -/
structure ParsedUrl where
  scheme : String
  netloc : String
  path : String
  query : String
  fragment : String
  deriving DecidableEq, Repr

/-- `_splitnetloc`: netloc runs up to the first of `/`, `?`, `#`. -/
def splitNetloc (l : List Char) : List Char × List Char :=
  (l.takeWhile (fun c => !(c == '/' || c == '?' || c == '#')),
   l.dropWhile (fun c => !(c == '/' || c == '?' || c == '#')))

/-- Shallow embedding of py2 `urlparse.urlparse` (with `allow_fragments`):
scheme split at the first `:` when the prefix is nonempty, made of scheme
characters, and the remainder is not a bare port number (the `http` prefix is
accepted unconditionally, as in the source); then netloc after a leading `//`;
then fragment at the first `#`; then query at the first `?`. -/
def urlparse (url : String) : ParsedUrl :=
  let l := url.toList
  let schemeSplit :=
    match splitAtFirst ':' l with
    | some (pre, post) =>
      if pre ≠ [] ∧ (pre = "http".toList ∨
          (pre.all (fun c => schemeChars.contains c) ∧
           (post = [] ∨ ¬ post.all (fun c => c.isDigit))))
      then (pre.map Char.toLower, post)
      else (([] : List Char), l)
    | none => (([] : List Char), l)
  let rest := schemeSplit.2
  let netlocSplit :=
    if rest.take 2 = ['/', '/'] then splitNetloc (rest.drop 2)
    else (([] : List Char), rest)
  let rest2 := netlocSplit.2
  let fragSplit :=
    match splitAtFirst '#' rest2 with
    | some (a, b) => (a, b)
    | none => (rest2, ([] : List Char))
  let querySplit :=
    match splitAtFirst '?' fragSplit.1 with
    | some (a, b) => (a, b)
    | none => (fragSplit.1, ([] : List Char))
  ⟨String.mk schemeSplit.1, String.mk netlocSplit.1, String.mk querySplit.1,
   String.mk querySplit.2, String.mk fragSplit.2⟩

example : urlparse "http://h/app/x#b" =
    ⟨"http", "h", "/app/x", "", "b"⟩ := by decide

example : urlparse "/x?q=1#b" = ⟨"", "", "/x", "q=1", "b"⟩ := by decide

example : splitFirstEq "css=a[b=c]" = some ("css", "a[b=c]") := by decide

example : splitFirstEq "nosuchthing" = none := by decide

/-- substring test used for Python `target in data` -/
def startsWithL : List Char → List Char → Bool
  | [], _ => true
  | _ :: _, [] => false
  | a :: as, b :: bs => a == b && startsWithL as bs

def containsL (needle : List Char) : List Char → Bool
  | [] => needle.isEmpty
  | c :: rest => startsWithL needle (c :: rest) || containsL needle rest

def strContains (hay needle : String) : Bool := containsL needle.toList hay.toList

/-- Python `s.startswith(pre)`. -/
def pyStartsWith (s pre : String) : Bool := startsWithL pre.toList s.toList

/-- The per-entry test of `CheckJavascriptErrors`:
`message.get("source", "") == "javascript" and message.get("level", "") == "SEVERE"`. -/
def severe (m : LogEntry) : Bool := m.source == "javascript" && m.level == "SEVERE"

/-- `CheckJavascriptErrors`: scan the console log and `self.fail` at the first
entry with source `javascript` and level `SEVERE`. -/
def CheckJavascriptErrors : M Unit :=
  bindM getLogM (fun log =>
    match log.find? severe with
    | some m =>
      throwM (Err.testFailure ("Javascript error ecountered during test: " ++ m.message))
    | none => pureM ())

/-- Loop body of `WaitUntil`, structured by the number of remaining
iterations.  Each iteration: run the callback; a truthy result returns
immediately (no sleep); a falsy result sleeps and continues; a raised
exception is logged (`except Exception`), then the iteration sleeps and
continues.  Exhaustion reads the visible body text and raises `RuntimeError`. -/
def WaitUntilLoop {α : Type} [PyTruthy α] (cb : M α) : Nat → M α
  | 0 =>
    bindM findBodyTextM (fun bt =>
      throwM (Err.runtime ("condition not met, body is: " ++ bt)))
  | Nat.succ n =>
    bindM
      (attempt
        (bindM cb (fun res =>
          pureM (if PyTruthy.truthy res then Option.some res else Option.none)))
        (fun e =>
          bindM (recordEv (Event.logWarning ("Selenium raised " ++ errMsg e)))
            (fun _ => pureM Option.none)))
      (fun r =>
        match r with
        | Option.some v => pureM v
        | Option.none => bindM (sleepFor sleep_time) (fun _ => WaitUntilLoop cb n))

/-- `WaitUntil`: console-error check once up front, then the bounded poll. -/
def WaitUntil {α : Type} [PyTruthy α] (cb : M α) : M α :=
  bindM CheckJavascriptErrors (fun _ => WaitUntilLoop cb iterations)

/-- `WaitUntilNot`: `self.WaitUntil(lambda: not condition_cb(*args))`. -/
def WaitUntilNot {α : Type} [PyTruthy α] (cb : M α) : M Unit :=
  bindM (WaitUntil (bindM cb (fun v => pureM (!(PyTruthy.truthy v)))))
    (fun _ => pureM ())

/-- Loop body of `WaitUntilEqual` (note: no console-error check anywhere in
this variant).  Comparison is Python `==`. -/
def WaitUntilEqualLoop (target : PyVal) (cb : M PyVal) : Nat → M Bool
  | 0 =>
    bindM findBodyTextM (fun bt =>
      throwM (Err.runtime ("condition not met, body is: " ++ bt)))
  | Nat.succ n =>
    bindM
      (attempt (bindM cb (fun v => pureM (pyEq v target)))
        (fun e =>
          bindM (recordEv (Event.logWarning ("Selenium raised " ++ errMsg e)))
            (fun _ => pureM false)))
      (fun hit =>
        if hit then pureM true
        else bindM (sleepFor sleep_time) (fun _ => WaitUntilEqualLoop target cb n))

def WaitUntilEqual (target : PyVal) (cb : M PyVal) : M Bool :=
  WaitUntilEqualLoop target cb iterations

/-- Loop body of `WaitUntilContains` (no console-error check in this variant
either).  The timeout message shows the last data value; the `%r` rendering of
the source is abstracted to the raw string. -/
def WaitUntilContainsLoop (target : String) (cb : M String) :
    Nat → String → M Bool
  | 0, data => throwM (Err.runtime ("condition not met. Got " ++ data))
  | Nat.succ n, data =>
    bindM
      (attempt (bindM cb (fun d => pureM (Option.some d)))
        (fun e =>
          bindM (recordEv (Event.logWarning ("Selenium raised " ++ errMsg e)))
            (fun _ => pureM Option.none)))
      (fun r =>
        match r with
        | Option.some d =>
          if strContains d target then pureM true
          else bindM (sleepFor sleep_time)
            (fun _ => WaitUntilContainsLoop target cb n d)
        | Option.none =>
          bindM (sleepFor sleep_time)
            (fun _ => WaitUntilContainsLoop target cb n data))

def WaitUntilContains (target : String) (cb : M String) : M Bool :=
  WaitUntilContainsLoop target cb iterations ""

/-- Loop body of the `SeleniumAction` decorator, structured by remaining
attempts.  `except WebDriverException`: log a warning, and unless this was
attempt number `num_attempts`, sleep `delay` and re-invoke `f` from scratch;
on the final attempt the caught error is re-raised unchanged.  Any other
exception propagates immediately. -/
def SeleniumActionLoop {α : Type} (f : M α) : Nat → M α
  | 0 => f
  | Nat.succ n =>
    attempt f (fun e =>
      if isWebDriverError e then
        bindM (recordEv (Event.logWarning ("Selenium raised " ++ errMsg e)))
          (fun _ =>
            if n = 0 then throwM e
            else bindM (sleepFor selenium_delay) (fun _ => SeleniumActionLoop f n))
      else throwM e)

def SeleniumAction {α : Type} (f : M α) : M α := SeleniumActionLoop f num_attempts

/-- pure observation step of the css branch: `[e for e in elems if e.is_displayed()]` -/
def filterDisplayedM (es : List ElemId) : M (List ElemId) := fun b w =>
  (Except.ok (es.filter (fun e => b.displayed w.time e)), w)

/-- link branch: first link whose `text.strip()` equals the pattern exactly -/
def firstExactLinkM (pat : String) (links : List ElemId) : M ElemId := fun b w =>
  (match links.find? (fun l => (b.textOf w.time l).trim == pat) with
   | some l => Except.ok l
   | none => Except.error Err.noSuchElement, w)

/-- `_FindElement`: split at the first `=` (tuple unpacking of
`selector.split("=", 1)` raises `ValueError` only when there is no `=`), then
dispatch on the scheme token. -/
def FindElement (selector : String) : M ElemId :=
  match splitFirstEq selector with
  | some (selectorType, effectiveSelector) =>
    if selectorType = "css" then
      bindM (execScriptM (cssScript effectiveSelector)) (fun v =>
        match v with
        | PyVal.elemList es =>
          bindM (filterDisplayedM es) (fun vis =>
            match vis with
            | [] => throwM Err.noSuchElement
            | e :: _ => pureM e)
        | _ => throwM (Err.typeError "execute_script result is not iterable"))
    else if selectorType = "link" then
      bindM (findLinkTextM effectiveSelector)
        (fun links => firstExactLinkM effectiveSelector links)
    else if selectorType = "xpath" then findXPathM effectiveSelector
    else if selectorType = "id" then findByIdM effectiveSelector
    else if selectorType = "name" then findByNameM effectiveSelector
    else throwM (Err.runtime ("unknown selector type " ++ selectorType))
  | none =>
    if pyStartsWith selector "//" then findXPathM selector
    else findByIdM selector

def Refresh : M Unit := SeleniumAction (recordEv Event.refresh)

/-- Body of `Open`: navigate to `base_url + url`, then compare the
post-navigation `driver.current_url` (misleadingly named `prev_parsed_url` in
the source) with the parsed `url` argument, refreshing when path and query
agree. -/
def OpenInner (url : String) : M Unit :=
  bindM baseUrlM (fun base =>
  bindM (driverGetM (base ++ url)) (fun _ =>
  bindM currentUrlM (fun cur =>
    if (urlparse cur).path = (urlparse url).path ∧
       (urlparse cur).query = (urlparse url).query
    then Refresh else pureM ())))

def Open (url : String) : M Unit := SeleniumAction (OpenInner url)

def Back : M Unit := SeleniumAction (recordEv Event.goBack)

def Forward : M Unit := SeleniumAction (recordEv Event.goForward)

/-- `IsElementPresent`: only `NoSuchElementException` is converted to `False`. -/
def IsElementPresent (target : String) : M Bool :=
  attemptOn isNoSuchElement
    (bindM (FindElement target) (fun _ => pureM true))
    (fun _ => pureM false)

def GetElement (target : String) : M (Option ElemId) :=
  attemptOn isNoSuchElement
    (bindM (FindElement target) (fun e => pureM (Option.some e)))
    (fun _ => pureM Option.none)

/-- `GetVisibleElement`: the element when present and displayed, else `None`;
only `NoSuchElementException` is absorbed. -/
def GetVisibleElement (target : String) : M (Option ElemId) :=
  attemptOn isNoSuchElement
    (bindM (FindElement target) (fun e =>
      bindM (isDisplayedM e) (fun disp =>
        if disp then pureM (Option.some e) else pureM Option.none)))
    (fun _ => pureM Option.none)

/-- `IsVisible`: `element and element.is_displayed()` — Python `and` yields
`None` (falsy) when the element is absent. -/
def IsVisible (target : String) : M (Option Bool) :=
  bindM (GetElement target) (fun el =>
    match el with
    | Option.none => pureM Option.none
    | Option.some e => bindM (isDisplayedM e) (fun d => pureM (Option.some d)))

def GetText (target : String) : M String :=
  bindM (WaitUntil (GetVisibleElement target)) (fun el =>
    match el with
    | Option.some e => bindM (elemTextM e) (fun t => pureM t.trim)
    | Option.none => throwM (Err.attributeError "NoneType has no attribute text"))

def GetAttribute (target attrName : String) : M (Option String) :=
  bindM (WaitUntil (GetVisibleElement target)) (fun el =>
    match el with
    | Option.some e => getAttributeM e attrName
    | Option.none =>
      throwM (Err.attributeError "NoneType has no attribute get_attribute"))

def GetValue (target : String) : M (Option String) := GetAttribute target "value"

def GetJavaScriptValue (js : String) : M PyVal := execScriptM js

/-- `_WaitForAjaxCompleted`: equality-0 poll of the in-page queue probe. -/
def WaitForAjaxCompleted : M Unit :=
  bindM (WaitUntilEqual (PyVal.pyInt 0) (GetJavaScriptValue ajaxScript))
    (fun _ => pureM ())

/-- `keys.Keys.ENTER` -/
def KeysENTER : String := "\uE007"

/-- Body of `Type` (named `TypeText` since `Type` is a Lean keyword):
wait for the visible element, clear it, send the keys (and Enter when asked);
when not ending with Enter, re-read the value and raise a retryable
`WebDriverException` if it differs from `text`. -/
def TypeTextInner (target text : String) (endWithEnter : Bool) : M Unit :=
  bindM (WaitUntil (GetVisibleElement target)) (fun el =>
    match el with
    | Option.none => throwM (Err.attributeError "NoneType has no attribute clear")
    | Option.some e =>
      bindM (clearFieldM e) (fun _ =>
      bindM (sendKeysM e text) (fun _ =>
      bindM (if endWithEnter then sendKeysM e KeysENTER else pureM ()) (fun _ =>
        if endWithEnter then pureM ()
        else
          bindM (GetValue target) (fun v =>
            if (Option.some text) ≠ v then
              throwM (Err.webDriver "Send_keys did not work correctly.")
            else pureM ())))))

def TypeText (target text : String) (endWithEnter : Bool) : M Unit :=
  SeleniumAction (TypeTextInner target text endWithEnter)

def ClickInner (target : String) : M Unit :=
  bindM WaitForAjaxCompleted (fun _ =>
  bindM (WaitUntil (GetVisibleElement target)) (fun el =>
    match el with
    | Option.some e => clickElemM e
    | Option.none => throwM (Err.attributeError "NoneType has no attribute click")))

def Click (target : String) : M Unit := SeleniumAction (ClickInner target)

def DoubleClickInner (target : String) : M Unit :=
  bindM WaitForAjaxCompleted (fun _ =>
  bindM (WaitUntil (GetVisibleElement target)) (fun el =>
    match el with
    | Option.some e => doubleClickElemM e
    | Option.none => throwM (Err.attributeError "NoneType has no attribute click")))

def DoubleClick (target : String) : M Unit := SeleniumAction (DoubleClickInner target)

/-- `GetCssCount`: hard `ValueError` unless the selector uses the `css=`
scheme; otherwise count the raw (unfiltered) css matches. -/
def GetCssCount (target : String) : M Int :=
  if !(pyStartsWith target "css=") then
    throwM (Err.valueError ("invalid target for GetCssCount: " ++ target))
  else
    bindM (findCssAllM (String.drop target 4)) (fun es => pureM (es.length : Int))

/-! ## Auxiliary material for the theorems -/

theorem checkJs_pass (b : Behavior) (w : World)
    (h : (b.browserLog w.time).find? severe = none) :
    CheckJavascriptErrors b w =
      (Except.ok (), { w with trace := w.trace ++ [Event.getLog] }) := by
  unfold CheckJavascriptErrors bindM getLogM
  simp [h, pureM]

theorem checkJs_fail (b : Behavior) (w : World) (m : LogEntry)
    (h : (b.browserLog w.time).find? severe = some m) :
    CheckJavascriptErrors b w =
      (Except.error (Err.testFailure ("Javascript error ecountered during test: " ++ m.message)),
       { w with trace := w.trace ++ [Event.getLog] }) := by
  unfold CheckJavascriptErrors bindM getLogM
  simp [h, throwM]

/-- A condition callback that raises on every invocation (the raised exception
may vary with the tick) and performs no driver calls of its own. -/
def raisingCb (α : Type) (f : Nat → Err) : M α := fun _ w => (Except.error (f w.time), w)

/-- An operation whose outcome depends only on the current tick and that
performs no driver calls of its own. -/
def tickOp (α : Type) (g : Nat → Except Err α) : M α := fun _ w => (g w.time, w)

/-- The `logging.warn` / `time.sleep` event pairs that `n` consecutive failed
attempts starting at tick `t0` leave in the trace. -/
def warnSleepEvents (msg : Nat → String) (d : ℚ) : Nat → Nat → List Event
  | _, 0 => []
  | t0, Nat.succ n =>
    Event.logWarning (msg t0) :: Event.sleep d :: warnSleepEvents msg d (t0 + 1) n

theorem bindM_ok {α β : Type} {x : M α} {f : α → M β} {b : Behavior} {w w2 : World}
    {a : α} (h : x b w = (Except.ok a, w2)) : bindM x f b w = f a b w2 := by
  unfold bindM; rw [h]

theorem bindM_err {α β : Type} {x : M α} {f : α → M β} {b : Behavior} {w w2 : World}
    {e : Err} (h : x b w = (Except.error e, w2)) :
    bindM x f b w = (Except.error e, w2) := by
  unfold bindM; rw [h]

theorem attempt_ok {α : Type} {x : M α} {h : Err → M α} {b : Behavior} {w w2 : World}
    {a : α} (hx : x b w = (Except.ok a, w2)) : attempt x h b w = (Except.ok a, w2) := by
  unfold attempt; rw [hx]

theorem attempt_err {α : Type} {x : M α} {h : Err → M α} {b : Behavior} {w w2 : World}
    {e : Err} (hx : x b w = (Except.error e, w2)) : attempt x h b w = h e b w2 := by
  unfold attempt; rw [hx]

/-- Exhausting `WaitUntilLoop` with an always-raising callback: every
iteration logs and sleeps, and the loop ends by reading the body text and
raising `RuntimeError` — never the callback exception. -/
theorem waitUntilLoop_raising {α : Type} [PyTruthy α] (f : Nat → Err) (n : Nat) :
    ∀ (b : Behavior) (w : World),
      WaitUntilLoop (raisingCb α f) n b w =
        (Except.error (Err.runtime ("condition not met, body is: " ++ b.bodyText (w.time + n))),
         { w with
           time := w.time + n,
           trace := w.trace ++
             warnSleepEvents (fun t => "Selenium raised " ++ errMsg (f t)) sleep_time w.time n ++
             [Event.findBodyTag] }) := by
  induction n with
  | zero =>
    intro b w
    simp [WaitUntilLoop, bindM, findBodyTextM, throwM, warnSleepEvents]
  | succ n ih =>
    intro b w
    have step :
        WaitUntilLoop (raisingCb α f) (n + 1) b w =
          WaitUntilLoop (raisingCb α f) n b
            { w with
              time := w.time + 1,
              trace := w.trace ++
                [Event.logWarning ("Selenium raised " ++ errMsg (f w.time)),
                 Event.sleep sleep_time] } := by
      simp [WaitUntilLoop, bindM, attempt, raisingCb, recordEv, pureM, sleepFor]
    rw [step, ih]
    have ht : w.time + 1 + n = w.time + (n + 1) := by omega
    rw [ht]
    simp [warnSleepEvents, List.append_assoc]

/-- A trivial driver behavior used to instantiate concrete witnesses. -/
def bDefault : Behavior where
  baseUrl := ""
  navigateResult := fun u => u
  executeScript := fun _ _ => PyVal.pyNone
  linkTextLookup := fun _ _ => []
  xpathLookup := fun _ _ => none
  idLookup := fun _ _ => none
  nameLookup := fun _ _ => none
  cssAllLookup := fun _ _ => []
  displayed := fun _ _ => false
  textOf := fun _ _ => ""
  bodyText := fun _ => "BODY TEXT"
  browserLog := fun _ => []
  attrDefault := fun _ _ _ => none
  keysDelivered := fun _ t => t

/-- Initial world for concrete runs. -/
def w0 : World := { time := 0, trace := [], currentUrl := "", fields := [] }

theorem seleniumLoop_succ {α : Type} (f : M α) (n : Nat) (b : Behavior) (w : World) :
    SeleniumActionLoop f (n + 1) b w =
      attempt f (fun e =>
        if isWebDriverError e then
          bindM (recordEv (Event.logWarning ("Selenium raised " ++ errMsg e)))
            (fun _ =>
              if n = 0 then throwM e
              else bindM (sleepFor selenium_delay) (fun _ => SeleniumActionLoop f n))
        else throwM e) b w := rfl

/-- Exhausting the retry budget with consecutive transient failures: one
warning per attempt, a sleep between attempts, the final error re-raised. -/
theorem seleniumLoop_raising {α : Type} (e : Nat → Err)
    (he : ∀ t, isWebDriverError (e t) = true) (n : Nat) :
    ∀ (b : Behavior) (w : World),
      SeleniumActionLoop (raisingCb α e) (n + 1) b w =
        (Except.error (e (w.time + n)),
         { w with
           time := w.time + n,
           trace := w.trace ++
             warnSleepEvents (fun t => "Selenium raised " ++ errMsg (e t)) selenium_delay w.time n ++
             [Event.logWarning ("Selenium raised " ++ errMsg (e (w.time + n)))] }) := by
  induction n with
  | zero =>
    intro b w
    rw [seleniumLoop_succ]
    rw [attempt_err (show raisingCb α e b w = (Except.error (e w.time), w) from rfl)]
    simp [he, recordEv, bindM, throwM, warnSleepEvents]
  | succ n ih =>
    intro b w
    have step :
        SeleniumActionLoop (raisingCb α e) (n + 1 + 1) b w =
          SeleniumActionLoop (raisingCb α e) (n + 1) b
            { w with
              time := w.time + 1,
              trace := w.trace ++
                [Event.logWarning ("Selenium raised " ++ errMsg (e w.time)),
                 Event.sleep selenium_delay] } := by
      rw [seleniumLoop_succ]
      rw [attempt_err (show raisingCb α e b w = (Except.error (e w.time), w) from rfl)]
      simp [he, recordEv, bindM, sleepFor]
    rw [step, ih]
    have ht : w.time + 1 + n = w.time + (n + 1) := by omega
    rw [ht]
    simp [warnSleepEvents, List.append_assoc]

/-- A non-transient exception propagates out of `SeleniumAction` on the first
attempt, with the state the wrapped operation left behind. -/
theorem seleniumAction_nontransient {α : Type} (f : M α) (b : Behavior) (w w2 : World)
    (e : Err) (hf : f b w = (Except.error e, w2)) (he : isWebDriverError e = false) :
    SeleniumAction f b w = (Except.error e, w2) := by
  show SeleniumActionLoop f 15 b w = _
  rw [show (15 : Nat) = 14 + 1 from rfl, seleniumLoop_succ, attempt_err hf]
  simp [he, throwM]

/-- C1: a condition callback that raises on every invocation makes `WaitUntil`
perform exactly `int(duration / sleep_time) = 25` polling iterations, each one
logging and absorbing the raised exception, after which the timeout
`RuntimeError` carrying the currently visible body text is raised.  The
conclusion is the same whatever the callback exceptions `f t` are, so the
original exception is never propagated. -/
theorem C1_raising_callback_times_out {α : Type} [PyTruthy α] (f : Nat → Err)
    (b : Behavior) (w : World)
    (hlog : (b.browserLog w.time).find? severe = none) :
    iterations = 25 ∧
    WaitUntil (raisingCb α f) b w =
      (Except.error (Err.runtime ("condition not met, body is: " ++ b.bodyText (w.time + 25))),
       { w with
         time := w.time + 25,
         trace := (w.trace ++ [Event.getLog]) ++
           warnSleepEvents (fun t => "Selenium raised " ++ errMsg (f t)) sleep_time w.time 25 ++
           [Event.findBodyTag] }) := by
  refine ⟨iterations_eq, ?_⟩
  unfold WaitUntil
  rw [bindM_ok (checkJs_pass b w hlog), iterations_eq, waitUntilLoop_raising]

/-- Witness for C1 at a concrete always-raising callback. -/
theorem C1_raising_callback_times_out_witness :
    (bDefault.browserLog w0.time).find? severe = none ∧
    (iterations = 25 ∧
     WaitUntil (raisingCb Bool (fun _ => Err.webDriver "boom")) bDefault w0 =
       (Except.error (Err.runtime ("condition not met, body is: " ++ bDefault.bodyText (w0.time + 25))),
        { w0 with
          time := w0.time + 25,
          trace := (w0.trace ++ [Event.getLog]) ++
            warnSleepEvents (fun _ => "Selenium raised " ++ errMsg (Err.webDriver "boom"))
              sleep_time w0.time 25 ++
            [Event.findBodyTag] })) :=
  ⟨by decide,
   C1_raising_callback_times_out (fun _ => Err.webDriver "boom") bDefault w0 (by decide)⟩

/-- C2: the `SeleniumAction` wrapper (i) reacts to a transient
`WebDriverException` by logging a warning, sleeping the 0.2s delay and
re-invoking the operation from scratch, so one flaky failure followed by a
success yields the success; (ii) after `num_attempts = 15` consecutive
transient failures the error of the 15th attempt is re-raised unchanged
(14 sleeps, 15 warnings); (iii) a non-transient exception propagates
immediately, with no retry, no warning and no sleep. -/
theorem C2_selenium_action_retry :
    (∀ (α : Type) (g : Nat → Except Err α) (b : Behavior) (w : World) (e0 : Err) (a : α),
      g w.time = Except.error e0 → isWebDriverError e0 = true →
      g (w.time + 1) = Except.ok a →
      SeleniumAction (tickOp α g) b w =
        (Except.ok a,
         { w with
           time := w.time + 1,
           trace := w.trace ++
             [Event.logWarning ("Selenium raised " ++ errMsg e0),
              Event.sleep selenium_delay] })) ∧
    (∀ (α : Type) (e : Nat → Err) (b : Behavior) (w : World),
      (∀ t, isWebDriverError (e t) = true) →
      num_attempts = 15 ∧
      SeleniumAction (raisingCb α e) b w =
        (Except.error (e (w.time + 14)),
         { w with
           time := w.time + 14,
           trace := w.trace ++
             warnSleepEvents (fun t => "Selenium raised " ++ errMsg (e t)) selenium_delay w.time 14 ++
             [Event.logWarning ("Selenium raised " ++ errMsg (e (w.time + 14)))] })) ∧
    (∀ (α : Type) (f : M α) (b : Behavior) (w w2 : World) (e : Err),
      f b w = (Except.error e, w2) → isWebDriverError e = false →
      SeleniumAction f b w = (Except.error e, w2)) := by
  refine ⟨?_, ?_, ?_⟩
  · intro α g b w e0 a hg0 he0 hg1
    have htick : tickOp α g b w = (Except.error e0, w) := by
      simp [tickOp, hg0]
    have hrec : recordEv (Event.logWarning ("Selenium raised " ++ errMsg e0)) b w =
        (Except.ok (),
         { w with trace := w.trace ++ [Event.logWarning ("Selenium raised " ++ errMsg e0)] }) := rfl
    have hsleep : sleepFor selenium_delay b
        { w with trace := w.trace ++ [Event.logWarning ("Selenium raised " ++ errMsg e0)] } =
        (Except.ok (),
         { w with
           time := w.time + 1,
           trace := w.trace ++ [Event.logWarning ("Selenium raised " ++ errMsg e0),
             Event.sleep selenium_delay] }) := by
      simp [sleepFor]
    have htick2 : tickOp α g b
        { w with
          time := w.time + 1,
          trace := w.trace ++ [Event.logWarning ("Selenium raised " ++ errMsg e0),
            Event.sleep selenium_delay] } =
        (Except.ok a,
         { w with
           time := w.time + 1,
           trace := w.trace ++ [Event.logWarning ("Selenium raised " ++ errMsg e0),
             Event.sleep selenium_delay] }) := by
      simp [tickOp, hg1]
    show SeleniumActionLoop (tickOp α g) 15 b w = _
    rw [show (15 : Nat) = 14 + 1 from rfl, seleniumLoop_succ, attempt_err htick]
    simp only [he0, if_true]
    rw [show (14 : Nat) = 13 + 1 from rfl]
    simp only [Nat.succ_ne_zero, if_false]
    rw [bindM_ok hrec, bindM_ok hsleep, seleniumLoop_succ, attempt_ok htick2]
  · intro α e b w he
    exact ⟨rfl, by
      show SeleniumActionLoop (raisingCb α e) 15 b w = _
      rw [show (15 : Nat) = 14 + 1 from rfl, seleniumLoop_raising e he 14]⟩
  · intro α f b w w2 e hf he
    exact seleniumAction_nontransient f b w w2 e hf he

/-- A concrete flaky operation: transient failure at tick 0, success later. -/
def gFlaky : Nat → Except Err Bool := fun t =>
  if t = 0 then Except.error (Err.webDriver "flaky") else Except.ok true

/-- Witness for C2 at the concrete flaky operation (retry-then-succeed part). -/
theorem C2_selenium_action_retry_witness :
    gFlaky w0.time = Except.error (Err.webDriver "flaky") ∧
    isWebDriverError (Err.webDriver "flaky") = true ∧
    gFlaky (w0.time + 1) = Except.ok true ∧
    SeleniumAction (tickOp Bool gFlaky) bDefault w0 =
      (Except.ok true,
       { w0 with
         time := w0.time + 1,
         trace := w0.trace ++
           [Event.logWarning ("Selenium raised " ++ errMsg (Err.webDriver "flaky")),
            Event.sleep selenium_delay] }) :=
  ⟨rfl, rfl, rfl,
   C2_selenium_action_retry.1 Bool gFlaky bDefault w0 (Err.webDriver "flaky") true
     rfl rfl rfl⟩

theorem splitAtFirst_not_mem (c : Char) (l : List Char) (h : c ∉ l) :
    splitAtFirst c l = none := by
  induction l with
  | nil => rfl
  | cons a as ih =>
    have hac : ¬ a = c := by
      intro hh
      exact h (by rw [← hh]; exact List.mem_cons_self a as)
    simp [splitAtFirst, hac, ih (fun hc => h (List.mem_cons_of_mem a hc))]

theorem splitAtFirst_concat (c : Char) (pre post : List Char) (h : c ∉ pre) :
    splitAtFirst c (pre ++ c :: post) = some (pre, post) := by
  induction pre with
  | nil => simp [splitAtFirst]
  | cons a as ih =>
    have hac : ¬ a = c := by
      intro hh
      exact h (by rw [← hh]; exact List.mem_cons_self a as)
    simp only [List.cons_append, splitAtFirst]
    simp [hac, ih (fun hc => h (List.mem_cons_of_mem a hc))]

theorem string_mk_toList (s : String) : String.mk s.toList = s := rfl

theorem toList_append (s t : String) : (s ++ t).toList = s.toList ++ t.toList :=
  String.data_append s t

/-- `selector.split("=", 1)` splits at the FIRST `=`, whatever comes before. -/
theorem splitFirstEq_concat (tok pat : String) (h : '=' ∉ tok.toList) :
    splitFirstEq (tok ++ "=" ++ pat) = some (tok, pat) := by
  have hl : (tok ++ "=" ++ pat).toList = tok.toList ++ '=' :: pat.toList := by
    have h1 : ("=" : String).toList = ['='] := rfl
    rw [toList_append, toList_append, h1]
    simp
  unfold splitFirstEq
  rw [hl, splitAtFirst_concat '=' _ _ h]
  simp [string_mk_toList]

theorem splitFirstEq_no_eq (s : String) (h : '=' ∉ s.toList) :
    splitFirstEq s = none := by
  unfold splitFirstEq
  rw [splitAtFirst_not_mem '=' _ h]

/-- Scheme classification of a selector in the vocabulary of claim C3. -/
inductive ClaimScheme where
  | explicitScheme (tok : String)
  | implicitXPath
  | implicitId
  deriving DecidableEq, Repr

/-- Modelled from the spec: the selector grammar exactly as the specification
and claim C3 word it — "if the input string contains a single `=` not part of
an xpath-ish leading `//`, the substring before the `=` is the scheme and the
remainder is the pattern; otherwise the whole string is the pattern", with the
implicit scheme resolving to xpath for patterns starting with `//` and to id
otherwise.  This is the claim-side definition compared against the code-side
`FindElement`; it is deliberately NOT derived from the source. -/
def claimParse (s : String) : ClaimScheme × String :=
  if s.toList.count '=' = 1 ∧ pyStartsWith s "//" = false then
    match splitFirstEq s with
    | some (tok, pat) => (ClaimScheme.explicitScheme tok, pat)
    | none => (ClaimScheme.implicitId, s)
  else if pyStartsWith s "//" then (ClaimScheme.implicitXPath, s)
  else (ClaimScheme.implicitId, s)

/-- driver behavior for the C3 counterexample: xpath lookup knows `//a[@b=c]` -/
def bC3 : Behavior :=
  { bDefault with xpathLookup := fun _ p => if p = "//a[@b=c]" then some 7 else none }

/-- C3 counterexample: per the claim, the selector `//a[@b=c]` (one `=`, part
of an xpath expression behind the leading `//`) is never split and resolves by
xpath lookup of the whole string — which here would return element 7.  The
code splits at the inner `=` anyway and raises
`RuntimeError("unknown selector type //a[@b")`. -/
theorem C3_counterexample :
    claimParse "//a[@b=c]" = (ClaimScheme.implicitXPath, "//a[@b=c]") ∧
    bC3.xpathLookup w0.time "//a[@b=c]" = some 7 ∧
    findXPathM "//a[@b=c]" bC3 w0 =
      (Except.ok 7, { w0 with trace := w0.trace ++ [Event.findXPath "//a[@b=c]"] }) ∧
    FindElement "//a[@b=c]" bC3 w0 =
      (Except.error (Err.runtime "unknown selector type //a[@b"), w0) := by
  refine ⟨by decide, by decide, by decide, by decide⟩

/-- C3 amended: the code splits at the FIRST `=` whenever the selector
contains at least one — even when the selector starts with `//` or contains
several `=` — taking the prefix as the scheme token: the five known tokens
dispatch to their strategies, every other token is an immediate configuration
error; only a selector containing no `=` at all is implicit, resolving by
xpath when it starts with `//` and by id lookup otherwise. -/
theorem C3_amended_first_eq_split :
    (∀ (tok pat : String) (b : Behavior) (w : World), '=' ∉ tok.toList →
      (tok = "css" →
        FindElement (tok ++ "=" ++ pat) b w =
          bindM (execScriptM (cssScript pat)) (fun v =>
            match v with
            | PyVal.elemList es =>
              bindM (filterDisplayedM es) (fun vis =>
                match vis with
                | [] => throwM Err.noSuchElement
                | e :: _ => pureM e)
            | _ => throwM (Err.typeError "execute_script result is not iterable")) b w) ∧
      (tok = "link" →
        FindElement (tok ++ "=" ++ pat) b w =
          bindM (findLinkTextM pat) (fun links => firstExactLinkM pat links) b w) ∧
      (tok = "xpath" → FindElement (tok ++ "=" ++ pat) b w = findXPathM pat b w) ∧
      (tok = "id" → FindElement (tok ++ "=" ++ pat) b w = findByIdM pat b w) ∧
      (tok = "name" → FindElement (tok ++ "=" ++ pat) b w = findByNameM pat b w) ∧
      (tok ≠ "css" → tok ≠ "link" → tok ≠ "xpath" → tok ≠ "id" → tok ≠ "name" →
        FindElement (tok ++ "=" ++ pat) b w =
          (Except.error (Err.runtime ("unknown selector type " ++ tok)), w))) ∧
    (∀ (s : String) (b : Behavior) (w : World), '=' ∉ s.toList →
      (pyStartsWith s "//" = true → FindElement s b w = findXPathM s b w) ∧
      (pyStartsWith s "//" = false → FindElement s b w = findByIdM s b w)) := by
  constructor
  · intro tok pat b w h
    have hsp := splitFirstEq_concat tok pat h
    refine ⟨?_, ?_, ?_, ?_, ?_, ?_⟩
    · intro htok; subst htok; unfold FindElement; rw [hsp]; simp
    · intro htok; subst htok; unfold FindElement; rw [hsp]; simp
    · intro htok; subst htok; unfold FindElement; rw [hsp]; simp
    · intro htok; subst htok; unfold FindElement; rw [hsp]; simp
    · intro htok; subst htok; unfold FindElement; rw [hsp]; simp
    · intro h1 h2 h3 h4 h5
      unfold FindElement
      rw [hsp]
      simp [h1, h2, h3, h4, h5, throwM]
  · intro s b w h
    have hsp := splitFirstEq_no_eq s h
    constructor
    · intro hsw; unfold FindElement; rw [hsp]; simp [hsw]
    · intro hsw; unfold FindElement; rw [hsp]; simp [hsw]

/-- Witness for the amended C3 at concrete selectors of each kind. -/
theorem C3_amended_first_eq_split_witness :
    ('=' ∉ ("xpath" : String).toList) ∧
    FindElement ("xpath" ++ "=" ++ "//a[@b=c]") bC3 w0 = findXPathM "//a[@b=c]" bC3 w0 :=
  ⟨by decide,
   (C3_amended_first_eq_split.1 "xpath" "//a[@b=c]" bC3 w0 (by decide)).2.2.1 rfl⟩

theorem splitFirstEq_css (X : String) : splitFirstEq ("css=" ++ X) = some ("css", X) := by
  have h : ("css=" ++ X) = "css" ++ "=" ++ X := rfl
  rw [h, splitFirstEq_concat "css" X (by decide)]

/-- C4: resolving `css=X` executes the jQuery script built from `X` against
the live DOM, keeps only the currently displayed matches, and returns the
first of them in document order; when no match is displayed (in particular
when there is no match at all) it raises `NoSuchElementException`. -/
theorem C4_css_first_visible (b : Behavior) (w : World) (X : String) (es : List ElemId)
    (hs : b.executeScript w.time (cssScript X) = PyVal.elemList es) :
    (∀ (e : ElemId) (rest : List ElemId),
      es.filter (fun i => b.displayed w.time i) = e :: rest →
      FindElement ("css=" ++ X) b w =
        (Except.ok e, { w with trace := w.trace ++ [Event.execScript (cssScript X)] })) ∧
    (es.filter (fun i => b.displayed w.time i) = [] →
      FindElement ("css=" ++ X) b w =
        (Except.error Err.noSuchElement,
         { w with trace := w.trace ++ [Event.execScript (cssScript X)] })) := by
  have hsp := splitFirstEq_css X
  constructor
  · intro e rest hf
    unfold FindElement
    rw [hsp]
    simp [bindM, execScriptM, hs, filterDisplayedM, hf, pureM]
  · intro hf
    unfold FindElement
    rw [hsp]
    simp [bindM, execScriptM, hs, filterDisplayedM, hf, throwM]

/-- driver behavior for the C4 witness: `css=div` matches elements 3, 5, 9,
of which 3 is hidden and 5 is the first visible one. -/
def bC4 : Behavior :=
  { bDefault with
    executeScript := fun _ js =>
      if js = cssScript "div" then PyVal.elemList [3, 5, 9] else PyVal.pyNone,
    displayed := fun _ e => e != 3 }

/-- Witness for C4: `css=div` resolves to 5, the first visible match. -/
theorem C4_css_first_visible_witness :
    bC4.executeScript w0.time (cssScript "div") = PyVal.elemList [3, 5, 9] ∧
    [3, 5, 9].filter (fun i => bC4.displayed w0.time i) = [5, 9] ∧
    FindElement ("css=" ++ "div") bC4 w0 =
      (Except.ok 5, { w0 with trace := w0.trace ++ [Event.execScript (cssScript "div")] }) :=
  ⟨by decide, by decide,
   (C4_css_first_visible bC4 w0 "div" [3, 5, 9] (by decide)).1 5 [9] (by decide)⟩

theorem refresh_run (b : Behavior) (w : World) :
    Refresh b w = (Except.ok (), { w with trace := w.trace ++ [Event.refresh] }) := by
  show SeleniumActionLoop (recordEv Event.refresh) 15 b w = _
  rw [show (15 : Nat) = 14 + 1 from rfl, seleniumLoop_succ]
  exact attempt_ok rfl

/-- driver/session state for the C5 counterexample: the base url carries a
path component and the browser already sits on `http://h/app/x#a`. -/
def bC5 : Behavior := { bDefault with baseUrl := "http://h/app" }

def wC5 : World := { time := 0, trace := [], currentUrl := "http://h/app/x#a", fields := [] }

/-- C5 counterexample: calling `Open "/x#b"` from `http://h/app/x#a` leaves
path and query of the location unchanged (only the fragment differs), so the
claim demands an explicit refresh; the code compares the post-navigation
location against the `url` argument instead (`/app/x` vs `/x`), so no refresh
event is issued. -/
theorem C5_counterexample :
    (urlparse wC5.currentUrl).path = (urlparse "http://h/app/x#b").path ∧
    (urlparse wC5.currentUrl).query = (urlparse "http://h/app/x#b").query ∧
    (urlparse wC5.currentUrl).fragment ≠ (urlparse "http://h/app/x#b").fragment ∧
    bC5.navigateResult (bC5.baseUrl ++ "/x#b") = "http://h/app/x#b" ∧
    Open "/x#b" bC5 wC5 =
      (Except.ok (),
       { wC5 with
         currentUrl := "http://h/app/x#b",
         trace := [Event.navigate "http://h/app/x#b"] }) ∧
    Event.refresh ∉ [Event.navigate "http://h/app/x#b"] := by
  refine ⟨by decide, by decide, by decide, by decide, by decide, by decide⟩

/-- C5 amended: `Open url` navigates to `base_url ++ url` and then refreshes
exactly when path and query of the POST-navigation `driver.current_url` equal
those of the `url` argument — the source compares the new location against the
argument (despite the `prev_parsed_url` name), not against the pre-navigation
location.  With a host-only base url and a driver landing where asked, this
makes the fragment-only scenario refresh, as the second conjunct shows
concretely. -/
theorem C5_open_refresh_condition :
    (∀ (b : Behavior) (w : World) (url : String),
      b.navigateResult (b.baseUrl ++ url) = b.baseUrl ++ url →
      Open url b w =
        (Except.ok (),
         { w with
           currentUrl := b.baseUrl ++ url,
           trace := w.trace ++ [Event.navigate (b.baseUrl ++ url)] ++
             (if (urlparse (b.baseUrl ++ url)).path = (urlparse url).path ∧
                 (urlparse (b.baseUrl ++ url)).query = (urlparse url).query
              then [Event.refresh] else []) })) ∧
    Open "/x#b" { bDefault with baseUrl := "http://h" }
        { w0 with currentUrl := "http://h/x#a" } =
      (Except.ok (),
       { w0 with
         currentUrl := "http://h/x#b",
         trace := [Event.navigate "http://h/x#b", Event.refresh] }) := by
  constructor
  · intro b w url hnav
    have hget : driverGetM (b.baseUrl ++ url) b w =
        (Except.ok (),
         { w with
           currentUrl := b.baseUrl ++ url,
           trace := w.trace ++ [Event.navigate (b.baseUrl ++ url)] }) := by
      simp [driverGetM, hnav]
    have hInner : OpenInner url b w =
        (Except.ok (),
         { w with
           currentUrl := b.baseUrl ++ url,
           trace := w.trace ++ [Event.navigate (b.baseUrl ++ url)] ++
             (if (urlparse (b.baseUrl ++ url)).path = (urlparse url).path ∧
                 (urlparse (b.baseUrl ++ url)).query = (urlparse url).query
              then [Event.refresh] else []) }) := by
      unfold OpenInner
      rw [bindM_ok (show baseUrlM b w = (Except.ok b.baseUrl, w) from rfl)]
      rw [bindM_ok hget]
      by_cases hc : (urlparse (b.baseUrl ++ url)).path = (urlparse url).path ∧
          (urlparse (b.baseUrl ++ url)).query = (urlparse url).query
      · rw [bindM_ok (show currentUrlM b
            { w with
              currentUrl := b.baseUrl ++ url,
              trace := w.trace ++ [Event.navigate (b.baseUrl ++ url)] } =
            (Except.ok (b.baseUrl ++ url),
             { w with
               currentUrl := b.baseUrl ++ url,
               trace := w.trace ++ [Event.navigate (b.baseUrl ++ url)] }) from rfl)]
        rw [if_pos hc, refresh_run, if_pos hc]
      · rw [bindM_ok (show currentUrlM b
            { w with
              currentUrl := b.baseUrl ++ url,
              trace := w.trace ++ [Event.navigate (b.baseUrl ++ url)] } =
            (Except.ok (b.baseUrl ++ url),
             { w with
               currentUrl := b.baseUrl ++ url,
               trace := w.trace ++ [Event.navigate (b.baseUrl ++ url)] }) from rfl)]
        rw [if_neg hc, if_neg hc]
        simp [pureM]
    show SeleniumActionLoop (OpenInner url) 15 b w = _
    rw [show (15 : Nat) = 14 + 1 from rfl, seleniumLoop_succ]
    exact attempt_ok hInner
  · decide

/-- Witness for the amended C5: with a host-only base url, `Open "/a"` lands
on `http://h/a`, whose path and query match the argument, so a refresh runs. -/
theorem C5_open_refresh_condition_witness :
    ({ bDefault with baseUrl := "http://h" } : Behavior).navigateResult
        ("http://h" ++ "/a") = "http://h" ++ "/a" ∧
    Open "/a" { bDefault with baseUrl := "http://h" } w0 =
      (Except.ok (),
       { w0 with
         currentUrl := "http://h" ++ "/a",
         trace := w0.trace ++ [Event.navigate ("http://h" ++ "/a")] ++
           (if (urlparse ("http://h" ++ "/a")).path = (urlparse "/a").path ∧
               (urlparse ("http://h" ++ "/a")).query = (urlparse "/a").query
            then [Event.refresh] else []) }) :=
  ⟨rfl, C5_open_refresh_condition.1 { bDefault with baseUrl := "http://h" } w0 "/a" rfl⟩

/-- `_FindElement` with an explicit unsupported scheme token raises the
configuration `RuntimeError` with the world untouched. -/
theorem findElement_unknown (s tok pat : String) (b : Behavior) (w : World)
    (hsp : splitFirstEq s = some (tok, pat))
    (h1 : tok ≠ "css") (h2 : tok ≠ "link") (h3 : tok ≠ "xpath")
    (h4 : tok ≠ "id") (h5 : tok ≠ "name") :
    FindElement s b w = (Except.error (Err.runtime ("unknown selector type " ++ tok)), w) := by
  unfold FindElement
  rw [hsp]
  simp [h1, h2, h3, h4, h5, throwM]

/-- C7: an explicit but unsupported scheme token makes `_FindElement` raise a
configuration error (`RuntimeError`) at once — a distinct exception from
`NoSuchElementException`, not a driver-level transient one, so the retry
wrapper re-raises it immediately without any retry; likewise `GetCssCount` on
a selector not starting with `css=` raises `ValueError` immediately. -/
theorem C7_unsupported_scheme_config_error :
    (∀ (tok pat : String) (b : Behavior) (w : World),
      '=' ∉ tok.toList →
      tok ≠ "css" → tok ≠ "link" → tok ≠ "xpath" → tok ≠ "id" → tok ≠ "name" →
      FindElement (tok ++ "=" ++ pat) b w =
        (Except.error (Err.runtime ("unknown selector type " ++ tok)), w) ∧
      Err.runtime ("unknown selector type " ++ tok) ≠ Err.noSuchElement ∧
      isWebDriverError (Err.runtime ("unknown selector type " ++ tok)) = false ∧
      SeleniumAction (FindElement (tok ++ "=" ++ pat)) b w =
        (Except.error (Err.runtime ("unknown selector type " ++ tok)), w)) ∧
    (∀ (target : String) (b : Behavior) (w : World),
      pyStartsWith target "css=" = false →
      GetCssCount target b w =
        (Except.error (Err.valueError ("invalid target for GetCssCount: " ++ target)), w)) := by
  constructor
  · intro tok pat b w h h1 h2 h3 h4 h5
    have hfe := findElement_unknown (tok ++ "=" ++ pat) tok pat b w
      (splitFirstEq_concat tok pat h) h1 h2 h3 h4 h5
    exact ⟨hfe, by simp, rfl,
      seleniumAction_nontransient _ b w w _ hfe rfl⟩
  · intro target b w h
    unfold GetCssCount
    simp [h, throwM]

/-- Witness for C7 at the unsupported token `foo` and a non-css count target. -/
theorem C7_unsupported_scheme_config_error_witness :
    ('=' ∉ ("foo" : String).toList) ∧
    (FindElement ("foo" ++ "=" ++ "bar") bDefault w0 =
       (Except.error (Err.runtime ("unknown selector type " ++ "foo")), w0) ∧
     Err.runtime ("unknown selector type " ++ "foo") ≠ Err.noSuchElement ∧
     isWebDriverError (Err.runtime ("unknown selector type " ++ "foo")) = false ∧
     SeleniumAction (FindElement ("foo" ++ "=" ++ "bar")) bDefault w0 =
       (Except.error (Err.runtime ("unknown selector type " ++ "foo")), w0)) ∧
    (pyStartsWith "link=Download" "css=" = false ∧
     GetCssCount "link=Download" bDefault w0 =
       (Except.error (Err.valueError ("invalid target for GetCssCount: " ++ "link=Download")), w0)) :=
  ⟨by decide,
   C7_unsupported_scheme_config_error.1 "foo" "bar" bDefault w0 (by decide)
     (by decide) (by decide) (by decide) (by decide) (by decide),
   by decide,
   C7_unsupported_scheme_config_error.2 "link=Download" bDefault w0 (by decide)⟩

theorem str_empty_append (s : String) : "" ++ s = s := rfl

/-- `GetVisibleElement` on an implicit-id selector whose element exists and is
displayed returns the element immediately. -/
theorem getVisible_id_ok (target : String) (e : ElemId) (b : Behavior) (w : World)
    (hsp : splitFirstEq target = none)
    (hsw : pyStartsWith target "//" = false)
    (hid : b.idLookup w.time target = some e)
    (hdisp : b.displayed w.time e = true) :
    GetVisibleElement target b w =
      (Except.ok (Option.some e), { w with trace := w.trace ++ [Event.findById target] }) := by
  unfold GetVisibleElement attemptOn attempt
  simp [bindM, FindElement, hsp, hsw, findByIdM, hid, isDisplayedM, hdisp, pureM]

theorem waitUntilLoop_succ {α : Type} [PyTruthy α] (cb : M α) (n : Nat)
    (b : Behavior) (w : World) :
    WaitUntilLoop cb (n + 1) b w =
      bindM
        (attempt
          (bindM cb (fun res =>
            pureM (if PyTruthy.truthy res then Option.some res else Option.none)))
          (fun e =>
            bindM (recordEv (Event.logWarning ("Selenium raised " ++ errMsg e)))
              (fun _ => pureM Option.none)))
        (fun r =>
          match r with
          | Option.some v => pureM v
          | Option.none => bindM (sleepFor sleep_time) (fun _ => WaitUntilLoop cb n)) b w := rfl

/-- `WaitUntil` returns on the very first poll when the callback immediately
produces a truthy value (after the single up-front console check). -/
theorem waitUntil_first_truthy {α : Type} [PyTruthy α] (cb : M α) (b : Behavior)
    (w w2 : World) (v : α)
    (hlog : (b.browserLog w.time).find? severe = none)
    (hcb : cb b { w with trace := w.trace ++ [Event.getLog] } = (Except.ok v, w2))
    (hv : PyTruthy.truthy v = true) :
    WaitUntil cb b w = (Except.ok v, w2) := by
  unfold WaitUntil
  rw [bindM_ok (checkJs_pass b w hlog), iterations_eq,
    show (25 : Nat) = 24 + 1 from rfl, waitUntilLoop_succ]
  have hx : bindM cb
      (fun res => pureM (if PyTruthy.truthy res then Option.some res else Option.none)) b
      { w with trace := w.trace ++ [Event.getLog] } = (Except.ok (Option.some v), w2) := by
    rw [bindM_ok hcb]
    simp [pureM, hv]
  rw [bindM_ok (attempt_ok hx)]
  simp [pureM]

theorem waitVisible_ok (target : String) (e : ElemId) (b : Behavior) (w : World)
    (hsp : splitFirstEq target = none)
    (hsw : pyStartsWith target "//" = false)
    (hid : b.idLookup w.time target = some e)
    (hdisp : b.displayed w.time e = true)
    (hlog : (b.browserLog w.time).find? severe = none) :
    WaitUntil (GetVisibleElement target) b w =
      (Except.ok (Option.some e),
       { w with trace := (w.trace ++ [Event.getLog]) ++ [Event.findById target] }) := by
  refine waitUntil_first_truthy (GetVisibleElement target) b w _ (Option.some e) hlog ?_ rfl
  exact getVisible_id_ok target e b _ hsp hsw hid hdisp

theorem getValue_run (target : String) (e : ElemId) (b : Behavior) (w : World)
    (hsp : splitFirstEq target = none)
    (hsw : pyStartsWith target "//" = false)
    (hid : b.idLookup w.time target = some e)
    (hdisp : b.displayed w.time e = true)
    (hlog : (b.browserLog w.time).find? severe = none) :
    GetValue target b w =
      (Except.ok (match w.fields.lookup e with
                  | some v => some v
                  | none => b.attrDefault w.time e "value"),
       { w with trace := (w.trace ++ [Event.getLog]) ++ [Event.findById target] }) := by
  unfold GetValue GetAttribute
  rw [bindM_ok (waitVisible_ok target e b w hsp hsw hid hdisp hlog)]
  simp [getAttributeM]

/-- One run of the (unwrapped) body of `Type` with `end_with_enter = False`
against a steadily resolvable visible id-selector: clear, send the keys, then
re-read the value; the run succeeds exactly when the driver delivered `text`
verbatim, and raises the retryable `WebDriverException` otherwise. -/
theorem typeInner_run (target text : String) (e : ElemId) (b : Behavior) (w : World)
    (hsp : splitFirstEq target = none)
    (hsw : pyStartsWith target "//" = false)
    (hid : ∀ t, b.idLookup t target = some e)
    (hdisp : ∀ t, b.displayed t e = true)
    (hlog : ∀ t, (b.browserLog t).find? severe = none) :
    TypeTextInner target text false b w =
      ((if Option.some text ≠ Option.some (b.keysDelivered w.time text) then
          Except.error (Err.webDriver "Send_keys did not work correctly.")
        else Except.ok ()),
       { w with
         fields := (e, b.keysDelivered w.time text) :: (e, "") :: w.fields,
         trace := w.trace ++ [Event.getLog, Event.findById target,
           Event.clearField e, Event.sendKeys e text, Event.getLog,
           Event.findById target] }) := by
  have hwv : WaitUntil (GetVisibleElement target) b w =
      (Except.ok (Option.some e),
       { w with trace := w.trace ++ [Event.getLog, Event.findById target] }) := by
    have h := waitVisible_ok target e b w hsp hsw (hid w.time) (hdisp w.time) (hlog w.time)
    simpa using h
  have hclear : clearFieldM e b
      { w with trace := w.trace ++ [Event.getLog, Event.findById target] } =
      (Except.ok (),
       { w with
         fields := (e, "") :: w.fields,
         trace := w.trace ++ [Event.getLog, Event.findById target,
           Event.clearField e] }) := by
    simp [clearFieldM]
  have hsend : sendKeysM e text b
      { w with
        fields := (e, "") :: w.fields,
        trace := w.trace ++ [Event.getLog, Event.findById target, Event.clearField e] } =
      (Except.ok (),
       { w with
         fields := (e, b.keysDelivered w.time text) :: (e, "") :: w.fields,
         trace := w.trace ++ [Event.getLog, Event.findById target,
           Event.clearField e, Event.sendKeys e text] }) := by
    simp [sendKeysM, List.lookup, str_empty_append]
  have hgv : GetValue target b
      { w with
        fields := (e, b.keysDelivered w.time text) :: (e, "") :: w.fields,
        trace := w.trace ++ [Event.getLog, Event.findById target,
          Event.clearField e, Event.sendKeys e text] } =
      (Except.ok (Option.some (b.keysDelivered w.time text)),
       { w with
         fields := (e, b.keysDelivered w.time text) :: (e, "") :: w.fields,
         trace := w.trace ++ [Event.getLog, Event.findById target,
           Event.clearField e, Event.sendKeys e text, Event.getLog,
           Event.findById target] }) := by
    have h := getValue_run target e b
      { w with
        fields := (e, b.keysDelivered w.time text) :: (e, "") :: w.fields,
        trace := w.trace ++ [Event.getLog, Event.findById target,
          Event.clearField e, Event.sendKeys e text] }
      hsp hsw (hid _) (hdisp _) (hlog _)
    simpa [List.lookup] using h
  unfold TypeTextInner
  rw [bindM_ok hwv]
  by_cases hc : Option.some text = Option.some (b.keysDelivered w.time text)
  · simp [bindM, hclear, hsend, hgv, str_empty_append, hc, throwM, pureM]
  · simp [bindM, hclear, hsend, hgv, str_empty_append, hc, throwM, pureM]

/-- One run of the body of `Type` with `end_with_enter = True`: the keys and
the Enter key are sent and NO value post-condition check is performed — the
run succeeds whatever the driver delivered. -/
theorem typeInnerEnter_run (target text : String) (e : ElemId) (b : Behavior) (w : World)
    (hsp : splitFirstEq target = none)
    (hsw : pyStartsWith target "//" = false)
    (hid : ∀ t, b.idLookup t target = some e)
    (hdisp : ∀ t, b.displayed t e = true)
    (hlog : ∀ t, (b.browserLog t).find? severe = none) :
    TypeTextInner target text true b w =
      (Except.ok (),
       { w with
         fields := (e, b.keysDelivered w.time text ++ b.keysDelivered w.time KeysENTER) ::
           (e, b.keysDelivered w.time text) :: (e, "") :: w.fields,
         trace := w.trace ++ [Event.getLog, Event.findById target,
           Event.clearField e, Event.sendKeys e text,
           Event.sendKeys e KeysENTER] }) := by
  have hwv : WaitUntil (GetVisibleElement target) b w =
      (Except.ok (Option.some e),
       { w with trace := w.trace ++ [Event.getLog, Event.findById target] }) := by
    have h := waitVisible_ok target e b w hsp hsw (hid w.time) (hdisp w.time) (hlog w.time)
    simpa using h
  have hclear : clearFieldM e b
      { w with trace := w.trace ++ [Event.getLog, Event.findById target] } =
      (Except.ok (),
       { w with
         fields := (e, "") :: w.fields,
         trace := w.trace ++ [Event.getLog, Event.findById target,
           Event.clearField e] }) := by
    simp [clearFieldM]
  have hsend : sendKeysM e text b
      { w with
        fields := (e, "") :: w.fields,
        trace := w.trace ++ [Event.getLog, Event.findById target, Event.clearField e] } =
      (Except.ok (),
       { w with
         fields := (e, b.keysDelivered w.time text) :: (e, "") :: w.fields,
         trace := w.trace ++ [Event.getLog, Event.findById target,
           Event.clearField e, Event.sendKeys e text] }) := by
    simp [sendKeysM, List.lookup, str_empty_append]
  have hsend2 : sendKeysM e KeysENTER b
      { w with
        fields := (e, b.keysDelivered w.time text) :: (e, "") :: w.fields,
        trace := w.trace ++ [Event.getLog, Event.findById target,
          Event.clearField e, Event.sendKeys e text] } =
      (Except.ok (),
       { w with
         fields := (e, b.keysDelivered w.time text ++ b.keysDelivered w.time KeysENTER) ::
           (e, b.keysDelivered w.time text) :: (e, "") :: w.fields,
         trace := w.trace ++ [Event.getLog, Event.findById target,
           Event.clearField e, Event.sendKeys e text,
           Event.sendKeys e KeysENTER] }) := by
    simp [sendKeysM, List.lookup]
  unfold TypeTextInner
  rw [bindM_ok hwv]
  simp [bindM, hclear, hsend, hsend2, str_empty_append, pureM]

/-- C6: with `end_with_enter = False`, `Type` re-reads the field value after
sending the keys and raises a retryable `WebDriverException` when it is not
exactly `text`; hence when the driver drops a keystroke on the first attempt
but delivers faithfully on the next, the wrapped `Type` succeeds and leaves
the field value exactly `text` (one retry tick).  With `end_with_enter = True`
no post-condition check happens and the run succeeds regardless. -/
theorem C6_type_postcondition_retry (target text : String) (e : ElemId)
    (b : Behavior) (w : World)
    (hsp : splitFirstEq target = none)
    (hsw : pyStartsWith target "//" = false)
    (hid : ∀ t, b.idLookup t target = some e)
    (hdisp : ∀ t, b.displayed t e = true)
    (hlog : ∀ t, (b.browserLog t).find? severe = none) :
    (b.keysDelivered w.time text ≠ text →
      (TypeTextInner target text false b w).1 =
        Except.error (Err.webDriver "Send_keys did not work correctly.") ∧
      isWebDriverError (Err.webDriver "Send_keys did not work correctly.") = true) ∧
    (b.keysDelivered w.time text ≠ text →
     b.keysDelivered (w.time + 1) text = text →
      (TypeText target text false b w).1 = Except.ok () ∧
      (TypeText target text false b w).2.fields.lookup e = Option.some text ∧
      (TypeText target text false b w).2.time = w.time + 1) ∧
    ((b.keysDelivered w.time text ≠ text →
      (TypeTextInner target text true b w).1 = Except.ok ())) := by
  refine ⟨?_, ?_, ?_⟩
  · intro hk0
    rw [typeInner_run target text e b w hsp hsw hid hdisp hlog]
    refine ⟨?_, rfl⟩
    rw [if_pos (show Option.some text ≠ Option.some (b.keysDelivered w.time text) from
      fun hh => hk0 (Option.some.inj hh).symm)]
  · intro hk0 hk1
    have h1 : TypeTextInner target text false b w =
        (Except.error (Err.webDriver "Send_keys did not work correctly."),
         { w with
           fields := (e, b.keysDelivered w.time text) :: (e, "") :: w.fields,
           trace := w.trace ++ [Event.getLog, Event.findById target,
             Event.clearField e, Event.sendKeys e text, Event.getLog,
             Event.findById target] }) := by
      rw [typeInner_run target text e b w hsp hsw hid hdisp hlog]
      rw [if_pos (show Option.some text ≠ Option.some (b.keysDelivered w.time text) from
        fun hh => hk0 (Option.some.inj hh).symm)]
    have hwd : isWebDriverError (Err.webDriver "Send_keys did not work correctly.") = true := rfl
    have hrec : recordEv (Event.logWarning ("Selenium raised " ++
        errMsg (Err.webDriver "Send_keys did not work correctly."))) b
        { w with
          fields := (e, b.keysDelivered w.time text) :: (e, "") :: w.fields,
          trace := w.trace ++ [Event.getLog, Event.findById target,
            Event.clearField e, Event.sendKeys e text, Event.getLog,
            Event.findById target] } =
        (Except.ok (),
         { w with
           fields := (e, b.keysDelivered w.time text) :: (e, "") :: w.fields,
           trace := w.trace ++ [Event.getLog, Event.findById target,
             Event.clearField e, Event.sendKeys e text, Event.getLog,
             Event.findById target,
             Event.logWarning ("Selenium raised " ++
               errMsg (Err.webDriver "Send_keys did not work correctly."))] }) := by
      simp [recordEv]
    have hslp : sleepFor selenium_delay b
        { w with
          fields := (e, b.keysDelivered w.time text) :: (e, "") :: w.fields,
          trace := w.trace ++ [Event.getLog, Event.findById target,
            Event.clearField e, Event.sendKeys e text, Event.getLog,
            Event.findById target,
            Event.logWarning ("Selenium raised " ++
              errMsg (Err.webDriver "Send_keys did not work correctly."))] } =
        (Except.ok (),
         { w with
           time := w.time + 1,
           fields := (e, b.keysDelivered w.time text) :: (e, "") :: w.fields,
           trace := w.trace ++ [Event.getLog, Event.findById target,
             Event.clearField e, Event.sendKeys e text, Event.getLog,
             Event.findById target,
             Event.logWarning ("Selenium raised " ++
               errMsg (Err.webDriver "Send_keys did not work correctly.")),
             Event.sleep selenium_delay] }) := by
      simp [sleepFor]
    have h2 : TypeTextInner target text false b
        { w with
          time := w.time + 1,
          fields := (e, b.keysDelivered w.time text) :: (e, "") :: w.fields,
          trace := w.trace ++ [Event.getLog, Event.findById target,
            Event.clearField e, Event.sendKeys e text, Event.getLog,
            Event.findById target,
            Event.logWarning ("Selenium raised " ++
              errMsg (Err.webDriver "Send_keys did not work correctly.")),
            Event.sleep selenium_delay] } =
        (Except.ok (),
         { w with
           time := w.time + 1,
           fields := (e, text) :: (e, "") ::
             (e, b.keysDelivered w.time text) :: (e, "") :: w.fields,
           trace := w.trace ++ [Event.getLog, Event.findById target,
             Event.clearField e, Event.sendKeys e text, Event.getLog,
             Event.findById target,
             Event.logWarning ("Selenium raised " ++
               errMsg (Err.webDriver "Send_keys did not work correctly.")),
             Event.sleep selenium_delay,
             Event.getLog, Event.findById target,
             Event.clearField e, Event.sendKeys e text, Event.getLog,
             Event.findById target] }) := by
      rw [typeInner_run target text e b _ hsp hsw hid hdisp hlog]
      simp [hk1]
    have hrun : TypeText target text false b w =
        (Except.ok (),
         { w with
           time := w.time + 1,
           fields := (e, text) :: (e, "") ::
             (e, b.keysDelivered w.time text) :: (e, "") :: w.fields,
           trace := w.trace ++ [Event.getLog, Event.findById target,
             Event.clearField e, Event.sendKeys e text, Event.getLog,
             Event.findById target,
             Event.logWarning ("Selenium raised " ++
               errMsg (Err.webDriver "Send_keys did not work correctly.")),
             Event.sleep selenium_delay,
             Event.getLog, Event.findById target,
             Event.clearField e, Event.sendKeys e text, Event.getLog,
             Event.findById target] }) := by
      show SeleniumActionLoop (TypeTextInner target text false) 15 b w = _
      rw [show (15 : Nat) = 14 + 1 from rfl, seleniumLoop_succ, attempt_err h1]
      simp only [hwd, if_true]
      rw [show (14 : Nat) = 13 + 1 from rfl]
      simp only [Nat.succ_ne_zero, if_false]
      rw [bindM_ok hrec, bindM_ok hslp, seleniumLoop_succ, attempt_ok h2]
    refine ⟨?_, ?_, ?_⟩
    · rw [hrun]
    · rw [hrun]; simp [List.lookup]
    · rw [hrun]
  · intro _
    rw [typeInnerEnter_run target text e b w hsp hsw hid hdisp hlog]

/-- driver for the C6 witness: the id `text_input` is element 4, always
visible; at tick 0 `send_keys` swallows the last character, afterwards it
delivers faithfully. -/
def bC6 : Behavior :=
  { bDefault with
    idLookup := fun _ _ => some 4,
    displayed := fun _ _ => true,
    keysDelivered := fun t s => if t = 0 then String.mk s.toList.dropLast else s }

/-- Witness for C6: one swallowed keystroke, then success with value `hello`. -/
theorem C6_type_postcondition_retry_witness :
    splitFirstEq "text_input" = none ∧
    pyStartsWith "text_input" "//" = false ∧
    (∀ t, bC6.idLookup t "text_input" = some 4) ∧
    (∀ t, bC6.displayed t 4 = true) ∧
    (∀ t, (bC6.browserLog t).find? severe = none) ∧
    bC6.keysDelivered w0.time "hello" ≠ "hello" ∧
    bC6.keysDelivered (w0.time + 1) "hello" = "hello" ∧
    ((TypeText "text_input" "hello" false bC6 w0).1 = Except.ok () ∧
     (TypeText "text_input" "hello" false bC6 w0).2.fields.lookup 4 = Option.some "hello" ∧
     (TypeText "text_input" "hello" false bC6 w0).2.time = w0.time + 1) :=
  ⟨by decide, by decide, fun _ => rfl, fun _ => rfl, fun _ => rfl,
   by decide, by decide,
   (C6_type_postcondition_retry "text_input" "hello" 4 bC6 w0 (by decide) (by decide)
     (fun _ => rfl) (fun _ => rfl) (fun _ => rfl)).2.1 (by decide) (by decide)⟩

theorem waitUntilEqualLoop_succ (target : PyVal) (cb : M PyVal) (n : Nat)
    (b : Behavior) (w : World) :
    WaitUntilEqualLoop target cb (n + 1) b w =
      bindM
        (attempt (bindM cb (fun v => pureM (pyEq v target)))
          (fun e =>
            bindM (recordEv (Event.logWarning ("Selenium raised " ++ errMsg e)))
              (fun _ => pureM false)))
        (fun hit =>
          if hit then pureM true
          else bindM (sleepFor sleep_time) (fun _ => WaitUntilEqualLoop target cb n)) b w := rfl

/-- One unsatisfied poll of `WaitUntilEqual` against 0: sleep and continue. -/
theorem waitEqualLoop_step_ne (cb : M PyVal) (n : Nat) (b : Behavior) (w w2 : World)
    (v : PyVal) (hcb : cb b w = (Except.ok v, w2))
    (hne : pyEq v (PyVal.pyInt 0) = false) :
    WaitUntilEqualLoop (PyVal.pyInt 0) cb (n + 1) b w =
      WaitUntilEqualLoop (PyVal.pyInt 0) cb n b
        { w2 with time := w2.time + 1, trace := w2.trace ++ [Event.sleep sleep_time] } := by
  have hx : bindM cb (fun v2 => pureM (pyEq v2 (PyVal.pyInt 0))) b w =
      (Except.ok false, w2) := by
    rw [bindM_ok hcb]
    simp [pureM, hne]
  rw [waitUntilEqualLoop_succ, bindM_ok (attempt_ok hx)]
  simp [sleepFor, bindM]

/-- The satisfied poll of `WaitUntilEqual` against 0: return `True` at once. -/
theorem waitEqualLoop_step_eq (cb : M PyVal) (n : Nat) (b : Behavior) (w w2 : World)
    (v : PyVal) (hcb : cb b w = (Except.ok v, w2))
    (heq : pyEq v (PyVal.pyInt 0) = true) :
    WaitUntilEqualLoop (PyVal.pyInt 0) cb (n + 1) b w = (Except.ok true, w2) := by
  have hx : bindM cb (fun v2 => pureM (pyEq v2 (PyVal.pyInt 0))) b w =
      (Except.ok true, w2) := by
    rw [bindM_ok hcb]
    simp [pureM, heq]
  rw [waitUntilEqualLoop_succ, bindM_ok (attempt_ok hx)]
  simp [pureM]

/-- The idle gate against a probe answering 3, 1, 0 on successive polls
returns on the third poll exactly: three probe scripts, two sleeps. -/
theorem ajaxGate_probe (b : Behavior) (w : World)
    (h0 : b.executeScript w.time ajaxScript = PyVal.pyInt 3)
    (h1 : b.executeScript (w.time + 1) ajaxScript = PyVal.pyInt 1)
    (h2 : b.executeScript (w.time + 2) ajaxScript = PyVal.pyInt 0) :
    WaitForAjaxCompleted b w =
      (Except.ok (),
       { w with
         time := w.time + 2,
         trace := w.trace ++ [Event.execScript ajaxScript, Event.sleep sleep_time,
           Event.execScript ajaxScript, Event.sleep sleep_time,
           Event.execScript ajaxScript] }) := by
  have e1 : execScriptM ajaxScript b w =
      (Except.ok (PyVal.pyInt 3),
       { w with trace := w.trace ++ [Event.execScript ajaxScript] }) := by
    simp [execScriptM, h0]
  have e2 : execScriptM ajaxScript b
      { w with
        time := w.time + 1,
        trace := (w.trace ++ [Event.execScript ajaxScript]) ++ [Event.sleep sleep_time] } =
      (Except.ok (PyVal.pyInt 1),
       { w with
         time := w.time + 1,
         trace := ((w.trace ++ [Event.execScript ajaxScript]) ++ [Event.sleep sleep_time]) ++
           [Event.execScript ajaxScript] }) := by
    simp [execScriptM, h1]
  have e3 : execScriptM ajaxScript b
      { w with
        time := w.time + 1 + 1,
        trace := (((w.trace ++ [Event.execScript ajaxScript]) ++ [Event.sleep sleep_time]) ++
          [Event.execScript ajaxScript]) ++ [Event.sleep sleep_time] } =
      (Except.ok (PyVal.pyInt 0),
       { w with
         time := w.time + 1 + 1,
         trace := ((((w.trace ++ [Event.execScript ajaxScript]) ++ [Event.sleep sleep_time]) ++
           [Event.execScript ajaxScript]) ++ [Event.sleep sleep_time]) ++
           [Event.execScript ajaxScript] }) := by
    have ht : w.time + 1 + 1 = w.time + 2 := by omega
    simp [execScriptM, ht, h2]
  have l1 := waitEqualLoop_step_ne (execScriptM ajaxScript) 24 b w _ _ e1 (by decide)
  have l2 := waitEqualLoop_step_ne (execScriptM ajaxScript) 23 b _ _ _ e2 (by decide)
  have l3 := waitEqualLoop_step_eq (execScriptM ajaxScript) 22 b _ _ _ e3 (by decide)
  have hEq : WaitUntilEqual (PyVal.pyInt 0) (GetJavaScriptValue ajaxScript) b w =
      (Except.ok true,
       { w with
         time := w.time + 2,
         trace := w.trace ++ [Event.execScript ajaxScript, Event.sleep sleep_time,
           Event.execScript ajaxScript, Event.sleep sleep_time,
           Event.execScript ajaxScript] }) := by
    unfold WaitUntilEqual GetJavaScriptValue
    rw [iterations_eq]
    have := (l1.trans (l2.trans l3))
    have ht : w.time + 1 + 1 = w.time + 2 := by omega
    simpa [ht] using this
  unfold WaitForAjaxCompleted
  rw [bindM_ok hEq]
  simp [pureM]

/-- C8: `Click` and `DoubleClick` run the ajax idle gate (equality-0 poll of
the in-page queue probe) BEFORE waiting for and resolving the target element —
against a probe answering 3, 1, 0 the gate returns exactly on the third poll —
while the pure reads `GetText` and `IsVisible` never execute the probe. -/
theorem C8_click_runs_idle_gate_first (target : String) (e : ElemId)
    (b : Behavior) (w : World)
    (h0 : b.executeScript w.time ajaxScript = PyVal.pyInt 3)
    (h1 : b.executeScript (w.time + 1) ajaxScript = PyVal.pyInt 1)
    (h2 : b.executeScript (w.time + 2) ajaxScript = PyVal.pyInt 0)
    (hsp : splitFirstEq target = none)
    (hsw : pyStartsWith target "//" = false)
    (hid : ∀ t, b.idLookup t target = some e)
    (hdisp : ∀ t, b.displayed t e = true)
    (hlog : ∀ t, (b.browserLog t).find? severe = none) :
    WaitForAjaxCompleted b w =
      (Except.ok (),
       { w with
         time := w.time + 2,
         trace := w.trace ++ [Event.execScript ajaxScript, Event.sleep sleep_time,
           Event.execScript ajaxScript, Event.sleep sleep_time,
           Event.execScript ajaxScript] }) ∧
    Click target b w =
      (Except.ok (),
       { w with
         time := w.time + 2,
         trace := w.trace ++ [Event.execScript ajaxScript, Event.sleep sleep_time,
           Event.execScript ajaxScript, Event.sleep sleep_time,
           Event.execScript ajaxScript, Event.getLog, Event.findById target,
           Event.click e] }) ∧
    DoubleClick target b w =
      (Except.ok (),
       { w with
         time := w.time + 2,
         trace := w.trace ++ [Event.execScript ajaxScript, Event.sleep sleep_time,
           Event.execScript ajaxScript, Event.sleep sleep_time,
           Event.execScript ajaxScript, Event.getLog, Event.findById target,
           Event.doubleClick e] }) ∧
    (GetText target b w =
       (Except.ok ((b.textOf w.time e).trim),
        { w with trace := w.trace ++ [Event.getLog, Event.findById target] }) ∧
     Event.execScript ajaxScript ∉ [Event.getLog, Event.findById target]) ∧
    (IsVisible target b w =
       (Except.ok (Option.some true),
        { w with trace := w.trace ++ [Event.findById target] }) ∧
     Event.execScript ajaxScript ∉ ([Event.findById target] : List Event)) := by
  have hGate := ajaxGate_probe b w h0 h1 h2
  have hwv : WaitUntil (GetVisibleElement target) b
      { w with
        time := w.time + 2,
        trace := w.trace ++ [Event.execScript ajaxScript, Event.sleep sleep_time,
          Event.execScript ajaxScript, Event.sleep sleep_time,
          Event.execScript ajaxScript] } =
      (Except.ok (Option.some e),
       { w with
         time := w.time + 2,
         trace := w.trace ++ [Event.execScript ajaxScript, Event.sleep sleep_time,
           Event.execScript ajaxScript, Event.sleep sleep_time,
           Event.execScript ajaxScript, Event.getLog, Event.findById target] }) := by
    have h := waitVisible_ok target e b
      { w with
        time := w.time + 2,
        trace := w.trace ++ [Event.execScript ajaxScript, Event.sleep sleep_time,
          Event.execScript ajaxScript, Event.sleep sleep_time,
          Event.execScript ajaxScript] }
      hsp hsw (hid _) (hdisp _) (hlog _)
    simpa using h
  refine ⟨hGate, ?_, ?_, ⟨?_, by simp⟩, ⟨?_, by simp⟩⟩
  · have hInner : ClickInner target b w =
        (Except.ok (),
         { w with
           time := w.time + 2,
           trace := w.trace ++ [Event.execScript ajaxScript, Event.sleep sleep_time,
             Event.execScript ajaxScript, Event.sleep sleep_time,
             Event.execScript ajaxScript, Event.getLog, Event.findById target,
             Event.click e] }) := by
      unfold ClickInner
      rw [bindM_ok hGate, bindM_ok hwv]
      simp [clickElemM, recordEv]
    show SeleniumActionLoop (ClickInner target) 15 b w = _
    rw [show (15 : Nat) = 14 + 1 from rfl, seleniumLoop_succ]
    exact attempt_ok hInner
  · have hInner : DoubleClickInner target b w =
        (Except.ok (),
         { w with
           time := w.time + 2,
           trace := w.trace ++ [Event.execScript ajaxScript, Event.sleep sleep_time,
             Event.execScript ajaxScript, Event.sleep sleep_time,
             Event.execScript ajaxScript, Event.getLog, Event.findById target,
             Event.doubleClick e] }) := by
      unfold DoubleClickInner
      rw [bindM_ok hGate, bindM_ok hwv]
      simp [doubleClickElemM, recordEv]
    show SeleniumActionLoop (DoubleClickInner target) 15 b w = _
    rw [show (15 : Nat) = 14 + 1 from rfl, seleniumLoop_succ]
    exact attempt_ok hInner
  · have hwv0 : WaitUntil (GetVisibleElement target) b w =
        (Except.ok (Option.some e),
         { w with trace := w.trace ++ [Event.getLog, Event.findById target] }) := by
      have h := waitVisible_ok target e b w hsp hsw (hid _) (hdisp _) (hlog _)
      simpa using h
    unfold GetText
    rw [bindM_ok hwv0]
    simp [elemTextM, bindM, pureM]
  · unfold IsVisible GetElement attemptOn attempt
    simp [bindM, FindElement, hsp, hsw, findByIdM, hid, isDisplayedM, hdisp, pureM]

/-- driver for the C8 witness: queue probe answers 3, 1, 0; id lookup finds
element 6, always displayed. -/
def bC8 : Behavior :=
  { bDefault with
    executeScript := fun t js =>
      if js = ajaxScript then
        (if t = 0 then PyVal.pyInt 3 else if t = 1 then PyVal.pyInt 1 else PyVal.pyInt 0)
      else PyVal.pyNone,
    idLookup := fun _ _ => some 6,
    displayed := fun _ _ => true }

/-- Witness for C8 at a concrete click on `menu`. -/
theorem C8_click_runs_idle_gate_first_witness :
    bC8.executeScript w0.time ajaxScript = PyVal.pyInt 3 ∧
    bC8.executeScript (w0.time + 1) ajaxScript = PyVal.pyInt 1 ∧
    bC8.executeScript (w0.time + 2) ajaxScript = PyVal.pyInt 0 ∧
    Click "menu" bC8 w0 =
      (Except.ok (),
       { w0 with
         time := w0.time + 2,
         trace := w0.trace ++ [Event.execScript ajaxScript, Event.sleep sleep_time,
           Event.execScript ajaxScript, Event.sleep sleep_time,
           Event.execScript ajaxScript, Event.getLog, Event.findById "menu",
           Event.click 6] }) :=
  ⟨by decide, by decide, by decide,
   (C8_click_runs_idle_gate_first "menu" 6 bC8 w0 (by decide) (by decide) (by decide)
     (by decide) (by decide) (fun _ => rfl) (fun _ => rfl) (fun _ => rfl)).2.1⟩

/-- A severe javascript console entry. -/
def sevEntry : LogEntry := { source := "javascript", level := "SEVERE", message := "boom" }

/-- driver for the C9 counterexample: the console log always carries a severe
javascript error, and the queue probe reports 0. -/
def bC9 : Behavior :=
  { bDefault with
    browserLog := fun _ => [sevEntry],
    executeScript := fun _ _ => PyVal.pyInt 0 }

/-- C9 counterexample: despite a severe javascript console entry being
present, the wait variant `WaitUntilEqual` succeeds and never even reads the
console log (no `getLog` driver call in its trace), and so does
`WaitUntilContains` — the up-front console check does NOT happen for every
wait variant entry point, contrary to the claim. -/
theorem C9_counterexample :
    (bC9.browserLog w0.time).find? severe = some sevEntry ∧
    WaitUntilEqual (PyVal.pyInt 0) (GetJavaScriptValue ajaxScript) bC9 w0 =
      (Except.ok true, { w0 with trace := [Event.execScript ajaxScript] }) ∧
    Event.getLog ∉ [Event.execScript ajaxScript] ∧
    WaitUntilContains "x" (pureM "xy") bC9 w0 = (Except.ok true, w0) ∧
    Event.getLog ∉ w0.trace := by
  refine ⟨by decide, ?_, by decide, ?_, by decide⟩
  · show WaitUntilEqualLoop (PyVal.pyInt 0) (GetJavaScriptValue ajaxScript) iterations bC9 w0 = _
    rw [iterations_eq]
    decide
  · show WaitUntilContainsLoop "x" (pureM "xy") iterations "" bC9 w0 = _
    rw [iterations_eq]
    decide

theorem waitUntilContainsLoop_succ (target : String) (cb : M String) (n : Nat)
    (data : String) (b : Behavior) (w : World) :
    WaitUntilContainsLoop target cb (n + 1) data b w =
      bindM
        (attempt (bindM cb (fun d => pureM (Option.some d)))
          (fun e =>
            bindM (recordEv (Event.logWarning ("Selenium raised " ++ errMsg e)))
              (fun _ => pureM Option.none)))
        (fun r =>
          match r with
          | Option.some d =>
            if strContains d target then pureM true
            else bindM (sleepFor sleep_time)
              (fun _ => WaitUntilContainsLoop target cb n d)
          | Option.none =>
            bindM (sleepFor sleep_time)
              (fun _ => WaitUntilContainsLoop target cb n data)) b w := rfl

/-- `WaitUntilEqual` never reads the console log: its outcome is invariant
under replacing the browser log wholesale (shown for callbacks that only
observe the tick). -/
theorem waitEqualLoop_log_independent (target : PyVal) (g : Nat → Except Err PyVal)
    (b : Behavior) (lg : Nat → List LogEntry) (n : Nat) :
    ∀ w, WaitUntilEqualLoop target (tickOp PyVal g) n { b with browserLog := lg } w =
      WaitUntilEqualLoop target (tickOp PyVal g) n b w := by
  induction n with
  | zero => intro w; rfl
  | succ n ih =>
    intro w
    rw [waitUntilEqualLoop_succ, waitUntilEqualLoop_succ]
    cases hg : g w.time with
    | ok v =>
      by_cases hv : pyEq v target = true
      · simp [bindM, attempt, tickOp, hg, pureM, hv]
      · simp [bindM, attempt, tickOp, hg, pureM, hv, sleepFor, ih]
    | error e => simp [bindM, attempt, tickOp, hg, pureM, recordEv, sleepFor, ih]

theorem waitContainsLoop_log_independent (target : String) (g : Nat → Except Err String)
    (b : Behavior) (lg : Nat → List LogEntry) (n : Nat) :
    ∀ (data : String) (w : World),
      WaitUntilContainsLoop target (tickOp String g) n data { b with browserLog := lg } w =
        WaitUntilContainsLoop target (tickOp String g) n data b w := by
  induction n with
  | zero => intro data w; rfl
  | succ n ih =>
    intro data w
    rw [waitUntilContainsLoop_succ, waitUntilContainsLoop_succ]
    cases hg : g w.time with
    | ok v =>
      by_cases hv : strContains v target = true
      · simp [bindM, attempt, tickOp, hg, pureM, hv]
      · simp [bindM, attempt, tickOp, hg, pureM, hv, sleepFor, ih]
    | error e => simp [bindM, attempt, tickOp, hg, pureM, recordEv, sleepFor, ih]

theorem warnSleepEvents_count_getLog (m : Nat → String) (d : ℚ) (n : Nat) :
    ∀ t, (warnSleepEvents m d t n).count Event.getLog = 0 := by
  induction n with
  | zero => intro t; rfl
  | succ n ih => intro t; simp [warnSleepEvents, List.count_cons, ih]

/-- C9 amended: the severe-console-error check runs exactly once, up front,
in `WaitUntil` — failing the test immediately (no iteration, no sleep) when a
severe entry is present, and reading the log exactly once over all 25
iterations otherwise — and likewise for `WaitUntilNot`, which delegates to
`WaitUntil`; but `WaitUntilEqual` and `WaitUntilContains` perform no console
check at all: their outcome is invariant under any replacement of the log. -/
theorem C9_console_check_once_not_all_variants :
    (∀ (α : Type) [PyTruthy α] (cb : M α) (b : Behavior) (w : World) (m : LogEntry),
      (b.browserLog w.time).find? severe = some m →
      WaitUntil cb b w =
        (Except.error (Err.testFailure ("Javascript error ecountered during test: " ++ m.message)),
         { w with trace := w.trace ++ [Event.getLog] }) ∧
      WaitUntilNot cb b w =
        (Except.error (Err.testFailure ("Javascript error ecountered during test: " ++ m.message)),
         { w with trace := w.trace ++ [Event.getLog] })) ∧
    (∀ (α : Type) [PyTruthy α] (f : Nat → Err) (b : Behavior) (w : World),
      (b.browserLog w.time).find? severe = none →
      ((WaitUntil (raisingCb α f) b w).2.trace.count Event.getLog =
        w.trace.count Event.getLog + 1)) ∧
    (∀ (g : Nat → Except Err PyVal) (target : PyVal) (b : Behavior)
       (lg : Nat → List LogEntry) (w : World),
      WaitUntilEqual target (tickOp PyVal g) { b with browserLog := lg } w =
        WaitUntilEqual target (tickOp PyVal g) b w) ∧
    (∀ (g : Nat → Except Err String) (target : String) (b : Behavior)
       (lg : Nat → List LogEntry) (w : World),
      WaitUntilContains target (tickOp String g) { b with browserLog := lg } w =
        WaitUntilContains target (tickOp String g) b w) := by
  refine ⟨?_, ?_, ?_, ?_⟩
  · intro α _ cb b w m hm
    have hfail := checkJs_fail b w m hm
    constructor
    · unfold WaitUntil
      rw [bindM_err hfail]
    · unfold WaitUntilNot WaitUntil
      rw [bindM_err (by rw [bindM_err hfail])]
  · intro α _ f b w hm
    unfold WaitUntil
    rw [bindM_ok (checkJs_pass b w hm), iterations_eq, waitUntilLoop_raising]
    simp [List.count_append, warnSleepEvents_count_getLog]
  · intro g target b lg w
    unfold WaitUntilEqual
    exact waitEqualLoop_log_independent target g b lg iterations w
  · intro g target b lg w
    unfold WaitUntilContains
    exact waitContainsLoop_log_independent target g b lg iterations "" w

/-- Witness for the amended C9 at a concrete severe console entry. -/
theorem C9_console_check_once_not_all_variants_witness :
    (bC9.browserLog w0.time).find? severe = some sevEntry ∧
    WaitUntil (pureM true) bC9 w0 =
      (Except.error (Err.testFailure ("Javascript error ecountered during test: " ++ sevEntry.message)),
       { w0 with trace := w0.trace ++ [Event.getLog] }) :=
  ⟨by decide,
   (C9_console_check_once_not_all_variants.1 Bool (pureM true) bC9 w0 sevEntry (by decide)).1⟩

theorem isElementPresent_of_find (s : String) (b : Behavior) (w w2 : World)
    (r : Except Err ElemId) (h : FindElement s b w = (r, w2)) :
    IsElementPresent s b w =
      (match r with
       | Except.ok _ => Except.ok true
       | Except.error Err.noSuchElement => Except.ok false
       | Except.error e => Except.error e, w2) := by
  unfold IsElementPresent attemptOn
  cases r with
  | ok a =>
    rw [attempt_ok (show bindM (FindElement s) (fun _ => pureM true) b w =
      (Except.ok true, w2) by rw [bindM_ok h]; rfl)]
  | error e =>
    rw [attempt_err (bindM_err h)]
    cases e <;> simp [isNoSuchElement, pureM, throwM]

theorem getElement_of_find (s : String) (b : Behavior) (w w2 : World)
    (r : Except Err ElemId) (h : FindElement s b w = (r, w2)) :
    GetElement s b w =
      (match r with
       | Except.ok e => Except.ok (Option.some e)
       | Except.error Err.noSuchElement => Except.ok Option.none
       | Except.error e => Except.error e, w2) := by
  unfold GetElement attemptOn
  cases r with
  | ok a =>
    rw [attempt_ok (show bindM (FindElement s) (fun e => pureM (Option.some e)) b w =
      (Except.ok (Option.some a), w2) by rw [bindM_ok h]; rfl)]
  | error e =>
    rw [attempt_err (bindM_err h)]
    cases e <;> simp [isNoSuchElement, pureM, throwM]

theorem getVisibleElement_of_find (s : String) (b : Behavior) (w w2 : World)
    (r : Except Err ElemId) (h : FindElement s b w = (r, w2)) (ht : w2.time = w.time) :
    GetVisibleElement s b w =
      (match r with
       | Except.ok e => Except.ok (if b.displayed w.time e then Option.some e else Option.none)
       | Except.error Err.noSuchElement => Except.ok Option.none
       | Except.error e => Except.error e, w2) := by
  unfold GetVisibleElement attemptOn
  cases r with
  | ok a =>
    have hx : bindM (FindElement s)
        (fun e => bindM (isDisplayedM e) (fun disp =>
          if disp then pureM (Option.some e) else pureM Option.none)) b w =
        (Except.ok (if b.displayed w.time a then Option.some a else Option.none), w2) := by
      rw [bindM_ok h]
      by_cases hd : b.displayed w.time a = true
      · simp [bindM, isDisplayedM, ht, hd, pureM]
      · simp [bindM, isDisplayedM, ht, hd, pureM]
    rw [attempt_ok hx]
  | error e =>
    rw [attempt_err (bindM_err h)]
    cases e <;> simp [isNoSuchElement, pureM, throwM]

theorem isVisible_of_find (s : String) (b : Behavior) (w w2 : World)
    (r : Except Err ElemId) (h : FindElement s b w = (r, w2)) (ht : w2.time = w.time) :
    IsVisible s b w =
      (match r with
       | Except.ok e => Except.ok (Option.some (b.displayed w.time e))
       | Except.error Err.noSuchElement => Except.ok Option.none
       | Except.error e => Except.error e, w2) := by
  unfold IsVisible
  rw [bindM]
  cases r with
  | ok a =>
    rw [getElement_of_find s b w w2 (Except.ok a) h]
    simp [bindM, isDisplayedM, ht, pureM]
  | error e =>
    rw [getElement_of_find s b w w2 (Except.error e) h]
    cases e <;> simp [pureM]

/-- `_FindElement` never sleeps (the tick is preserved) and its outcome is an
element, `NoSuchElementException`, or the unknown-scheme configuration error —
provided the page script returns element lists for the css queries. -/
theorem findElement_cases (s : String) (b : Behavior) (w : World)
    (hjq : ∀ X, ∃ es, b.executeScript w.time (cssScript X) = PyVal.elemList es) :
    (FindElement s b w).2.time = w.time ∧
    ((∃ e, (FindElement s b w).1 = Except.ok e) ∨
     (FindElement s b w).1 = Except.error Err.noSuchElement ∨
     (∃ tok pat, splitFirstEq s = some (tok, pat) ∧
       FindElement s b w = (Except.error (Err.runtime ("unknown selector type " ++ tok)), w))) := by
  cases hsp : splitFirstEq s with
  | none =>
    by_cases hsw : pyStartsWith s "//" = true
    · have hfe : FindElement s b w =
          (match b.xpathLookup w.time s with
           | some e => Except.ok e
           | none => Except.error Err.noSuchElement,
           { w with trace := w.trace ++ [Event.findXPath s] }) := by
        unfold FindElement
        rw [hsp]
        simp [hsw, findXPathM]
      rw [hfe]
      cases hx : b.xpathLookup w.time s with
      | some e => exact ⟨rfl, Or.inl ⟨e, rfl⟩⟩
      | none => exact ⟨rfl, Or.inr (Or.inl rfl)⟩
    · have hfe : FindElement s b w =
          (match b.idLookup w.time s with
           | some e => Except.ok e
           | none => Except.error Err.noSuchElement,
           { w with trace := w.trace ++ [Event.findById s] }) := by
        unfold FindElement
        rw [hsp]
        simp [hsw, findByIdM]
      rw [hfe]
      cases hx : b.idLookup w.time s with
      | some e => exact ⟨rfl, Or.inl ⟨e, rfl⟩⟩
      | none => exact ⟨rfl, Or.inr (Or.inl rfl)⟩
  | some tp =>
    obtain ⟨tok, pat⟩ := tp
    by_cases h1 : tok = "css"
    · subst h1
      obtain ⟨es, hes⟩ := hjq pat
      cases hf : es.filter (fun i => b.displayed w.time i) with
      | nil =>
        have hfe : FindElement s b w =
            (Except.error Err.noSuchElement,
             { w with trace := w.trace ++ [Event.execScript (cssScript pat)] }) := by
          unfold FindElement
          rw [hsp]
          simp [bindM, execScriptM, hes, filterDisplayedM, hf, throwM]
        rw [hfe]
        exact ⟨rfl, Or.inr (Or.inl rfl)⟩
      | cons e rest =>
        have hfe : FindElement s b w =
            (Except.ok e,
             { w with trace := w.trace ++ [Event.execScript (cssScript pat)] }) := by
          unfold FindElement
          rw [hsp]
          simp [bindM, execScriptM, hes, filterDisplayedM, hf, pureM]
        rw [hfe]
        exact ⟨rfl, Or.inl ⟨e, rfl⟩⟩
    · by_cases h2 : tok = "link"
      · subst h2
        have hfe : FindElement s b w =
            (match (b.linkTextLookup w.time pat).find?
               (fun l => (b.textOf w.time l).trim == pat) with
             | some l => Except.ok l
             | none => Except.error Err.noSuchElement,
             { w with trace := w.trace ++ [Event.findLinkText pat] }) := by
          unfold FindElement
          rw [hsp]
          simp [bindM, findLinkTextM, firstExactLinkM]
        rw [hfe]
        cases hx : (b.linkTextLookup w.time pat).find?
            (fun l => (b.textOf w.time l).trim == pat) with
        | some l => exact ⟨rfl, Or.inl ⟨l, rfl⟩⟩
        | none => exact ⟨rfl, Or.inr (Or.inl rfl)⟩
      · by_cases h3 : tok = "xpath"
        · subst h3
          have hfe : FindElement s b w =
              (match b.xpathLookup w.time pat with
               | some e => Except.ok e
               | none => Except.error Err.noSuchElement,
               { w with trace := w.trace ++ [Event.findXPath pat] }) := by
            unfold FindElement
            rw [hsp]
            simp [findXPathM]
          rw [hfe]
          cases hx : b.xpathLookup w.time pat with
          | some e => exact ⟨rfl, Or.inl ⟨e, rfl⟩⟩
          | none => exact ⟨rfl, Or.inr (Or.inl rfl)⟩
        · by_cases h4 : tok = "id"
          · subst h4
            have hfe : FindElement s b w =
                (match b.idLookup w.time pat with
                 | some e => Except.ok e
                 | none => Except.error Err.noSuchElement,
                 { w with trace := w.trace ++ [Event.findById pat] }) := by
              unfold FindElement
              rw [hsp]
              simp [findByIdM]
            rw [hfe]
            cases hx : b.idLookup w.time pat with
            | some e => exact ⟨rfl, Or.inl ⟨e, rfl⟩⟩
            | none => exact ⟨rfl, Or.inr (Or.inl rfl)⟩
          · by_cases h5 : tok = "name"
            · subst h5
              have hfe : FindElement s b w =
                  (match b.nameLookup w.time pat with
                   | some e => Except.ok e
                   | none => Except.error Err.noSuchElement,
                   { w with trace := w.trace ++ [Event.findByName pat] }) := by
                unfold FindElement
                rw [hsp]
                simp [findByNameM]
              rw [hfe]
              cases hx : b.nameLookup w.time pat with
              | some e => exact ⟨rfl, Or.inl ⟨e, rfl⟩⟩
              | none => exact ⟨rfl, Or.inr (Or.inl rfl)⟩
            · have hfe := findElement_unknown s tok pat b w hsp h1 h2 h3 h4 h5
              rw [hfe]
              exact ⟨rfl, Or.inr (Or.inr ⟨tok, pat, rfl, rfl⟩)⟩

/-- C10: the non-waiting probes never let `NoSuchElementException` escape and
never poll (the tick is preserved): a missing element yields `False` / `None`
/ `None` / the falsy `None`; a present but hidden element makes
`GetVisibleElement` return `None` and `IsVisible` return `Some false`; only
the unsupported-scheme configuration error still propagates out of the
probes, and (under a page whose css queries return element lists) it is the
only error that can. -/
theorem C10_probes_no_notfound_no_poll (s : String) (b : Behavior) (w : World)
    (hjq : ∀ X, ∃ es, b.executeScript w.time (cssScript X) = PyVal.elemList es) :
    ((IsElementPresent s b w).1 ≠ Except.error Err.noSuchElement ∧
     (GetElement s b w).1 ≠ Except.error Err.noSuchElement ∧
     (GetVisibleElement s b w).1 ≠ Except.error Err.noSuchElement ∧
     (IsVisible s b w).1 ≠ Except.error Err.noSuchElement) ∧
    ((IsElementPresent s b w).2.time = w.time ∧
     (GetElement s b w).2.time = w.time ∧
     (GetVisibleElement s b w).2.time = w.time ∧
     (IsVisible s b w).2.time = w.time) ∧
    ((FindElement s b w).1 = Except.error Err.noSuchElement →
      ((IsElementPresent s b w).1 = Except.ok false ∧
       (GetElement s b w).1 = Except.ok Option.none ∧
       (GetVisibleElement s b w).1 = Except.ok Option.none ∧
       (IsVisible s b w).1 = Except.ok Option.none)) ∧
    (∀ e, (FindElement s b w).1 = Except.ok e → b.displayed w.time e = false →
      ((GetVisibleElement s b w).1 = Except.ok Option.none ∧
       (IsVisible s b w).1 = Except.ok (Option.some false))) ∧
    (∀ tok pat, splitFirstEq s = some (tok, pat) →
      tok ≠ "css" → tok ≠ "link" → tok ≠ "xpath" → tok ≠ "id" → tok ≠ "name" →
      (IsElementPresent s b w = (Except.error (Err.runtime ("unknown selector type " ++ tok)), w) ∧
       GetElement s b w = (Except.error (Err.runtime ("unknown selector type " ++ tok)), w) ∧
       GetVisibleElement s b w = (Except.error (Err.runtime ("unknown selector type " ++ tok)), w) ∧
       IsVisible s b w = (Except.error (Err.runtime ("unknown selector type " ++ tok)), w))) ∧
    (∀ e2, (IsElementPresent s b w).1 = Except.error e2 →
      ∃ tok pat, splitFirstEq s = some (tok, pat) ∧
        e2 = Err.runtime ("unknown selector type " ++ tok)) := by
  obtain ⟨ht0, hsh0⟩ := findElement_cases s b w hjq
  rcases hfe : FindElement s b w with ⟨r, w2⟩
  rw [hfe] at ht0 hsh0
  have ht : w2.time = w.time := ht0
  have hsh : (∃ e, r = Except.ok e) ∨ r = Except.error Err.noSuchElement ∨
      (∃ tok pat, splitFirstEq s = some (tok, pat) ∧
        (r, w2) = (Except.error (Err.runtime ("unknown selector type " ++ tok)), w)) := hsh0
  have hIEP := isElementPresent_of_find s b w w2 r hfe
  have hGE := getElement_of_find s b w w2 r hfe
  have hGV := getVisibleElement_of_find s b w w2 r hfe ht
  have hIV := isVisible_of_find s b w w2 r hfe ht
  refine ⟨⟨?_, ?_, ?_, ?_⟩, ⟨?_, ?_, ?_, ?_⟩, ?_, ?_, ?_, ?_⟩
  · rw [hIEP]
    cases r with
    | ok a => simp
    | error e => cases e <;> simp
  · rw [hGE]
    cases r with
    | ok a => simp
    | error e => cases e <;> simp
  · rw [hGV]
    cases r with
    | ok a => simp
    | error e => cases e <;> simp
  · rw [hIV]
    cases r with
    | ok a => simp
    | error e => cases e <;> simp
  · rw [hIEP]; exact ht
  · rw [hGE]; exact ht
  · rw [hGV]; exact ht
  · rw [hIV]; exact ht
  · intro hr
    have hr2 : r = Except.error Err.noSuchElement := hr
    subst hr2
    rw [hIEP, hGE, hGV, hIV]
    exact ⟨rfl, rfl, rfl, rfl⟩
  · intro e hre hd
    have hre2 : r = Except.ok e := hre
    subst hre2
    rw [hGV, hIV]
    constructor
    · simp [hd]
    · simp [hd]
  · intro tok pat hsp h1 h2 h3 h4 h5
    have hfeu := findElement_unknown s tok pat b w hsp h1 h2 h3 h4 h5
    rw [hfe, Prod.mk.injEq] at hfeu
    obtain ⟨hr, hw⟩ := hfeu
    subst hr
    subst hw
    rw [hIEP, hGE, hGV, hIV]
    exact ⟨rfl, rfl, rfl, rfl⟩
  · intro e2 he2
    rw [hIEP] at he2
    rcases hsh with ⟨e, hre⟩ | hre | ⟨tok, pat, hsp2, hpair⟩
    · subst hre
      simp at he2
    · subst hre
      simp at he2
    · rw [Prod.mk.injEq] at hpair
      obtain ⟨hr, hw⟩ := hpair
      subst hr
      simp only [] at he2
      exact ⟨tok, pat, hsp2, by
        have : Except.error (Err.runtime ("unknown selector type " ++ tok)) =
            (Except.error e2 : Except Err Bool) := he2
        simpa using this.symm⟩

/-- driver for the C10 witness: css queries yield the empty element list, id
lookup resolves to element 9, and nothing is displayed. -/
def bC10 : Behavior :=
  { bDefault with
    executeScript := fun _ _ => PyVal.elemList [],
    idLookup := fun _ _ => some 9,
    displayed := fun _ _ => false }

/-- Witness for C10: a present but hidden element gives `GetVisibleElement =
None` and a falsy `IsVisible`. -/
theorem C10_probes_no_notfound_no_poll_witness :
    (∀ X, ∃ es, bC10.executeScript w0.time (cssScript X) = PyVal.elemList es) ∧
    (FindElement "hidden_box" bC10 w0).1 = Except.ok 9 ∧
    bC10.displayed w0.time 9 = false ∧
    ((GetVisibleElement "hidden_box" bC10 w0).1 = Except.ok Option.none ∧
     (IsVisible "hidden_box" bC10 w0).1 = Except.ok (Option.some false)) :=
  ⟨fun X => ⟨[], rfl⟩,
   by decide, rfl,
   (C10_probes_no_notfound_no_poll "hidden_box" bC10 w0 (fun X => ⟨[], rfl⟩)).2.2.2.1 9
     (by decide) rfl⟩

end GuiTestLib
